import Mathlib

/-!
# SurveySavvy PDF importer — verification development

Shallow embedding of the PDF survey-import pipeline of
`surveysavvy/core/pdf_import.py` and of the schema builder in
`surveysavvy/core/database.py`, together with theorems about the embedded
functions.

Modelling conventions, used throughout:

* Page texts and raw strings are `List Char` (`String.data`); the regular
  expressions of the source are translated into explicit deterministic
  scanners over character lists that implement the leftmost-match semantics
  of `re.search` / `re.findall` for the concrete patterns appearing in the
  source.
* Python `float` values that are only parsed from the text and copied into
  the database (percentages, response rates, sample statistics) are
  modelled by their decimal token (structure `FloatLit`); the importer never
  computes with them.  The sentiment score, which *is* computed
  arithmetically, is modelled as `ℚ` — the identities proved about it
  (`0`, `1`, `-1`, bounds) are exact in IEEE arithmetic as well.
* SQLite tables are lists of rows; `INSERT` appends, row ids are assigned
  sequentially, `SELECT ... fetchone()` is `List.find?`.
* The PDF reader (`fitz`) is external; a document is modelled as its list
  of page texts.
-/

set_option maxRecDepth 8000

namespace SurveySavvy

/-! ## Character and string utilities -/

/-- Python `\s` whitespace class (ASCII subset occurring in the PDF text). -/
def pySpace (c : Char) : Bool :=
  c = ' ' || c = '\t' || c = '\n' || c = '\r' || c = '\x0b' || c = '\x0c'

/-- Python `\w` word-character class (ASCII subset), used for `\b`. -/
def pyWordChar (c : Char) : Bool :=
  c.isAlpha || c.isDigit || c = '_'

/-- Python `str.lower()` (ASCII). -/
def pyLowerChars (s : List Char) : List Char := s.map Char.toLower

/-- Python `str.lower()` on `String`. -/
def pyLower (s : String) : String := String.mk (pyLowerChars s.data)

/-- Python substring containment `needle in haystack`. -/
def isSubChars (needle : List Char) : List Char → Bool
  | [] => needle.isPrefixOf []
  | c :: rest => needle.isPrefixOf (c :: rest) || isSubChars needle rest

/-- Python `str.strip()`: drop leading and trailing whitespace. -/
def pyStrip (s : List Char) : List Char :=
  ((s.dropWhile pySpace).reverse.dropWhile pySpace).reverse

/-- Split a character list at every occurrence of a separator character
(Python `str.split('\n')`). -/
def splitOnChar (sep : Char) : List Char → List (List Char)
  | [] => [[]]
  | c :: rest =>
    let r := splitOnChar sep rest
    if c = sep then [] :: r
    else
      match r with
      | [] => [[c]]
      | h :: t => (c :: h) :: t

/-- Python `str.split()` with no argument: split on whitespace runs,
dropping empty pieces. -/
def pySplitWs (s : List Char) : List (List Char) :=
  ((splitOnChar ' ' (s.map (fun c => if pySpace c then ' ' else c))).filter
    (fun w => !w.isEmpty))

/-- Maximal leading digit run of a character list, with the remainder. -/
def takeDigitRun : List Char → List Char × List Char
  | [] => ([], [])
  | c :: rest =>
    if c.isDigit then
      let (r, t) := takeDigitRun rest
      (c :: r, t)
    else ([], c :: rest)

theorem takeDigitRun_snd_length_le (l : List Char) :
    (takeDigitRun l).2.length ≤ l.length := by
  induction l with
  | nil => simp [takeDigitRun]
  | cons c rest ih =>
    simp only [takeDigitRun]
    split
    · simpa using Nat.le_succ_of_le ih
    · simp

/-- Value of a digit token (Python `int`). -/
def digitsToNat (l : List Char) : Nat :=
  l.foldl (fun acc c => acc * 10 + (c.toNat - '0'.toNat)) 0

/-- A Python float literal as it appears in (or is copied from) the text.
The importer only parses and copies these values, never computes with
them, so the decimal token is a faithful representation. -/
structure FloatLit where
  lit : String
  deriving DecidableEq, Repr

/-- Python float literal `0.0`, the default used throughout the importer. -/
def fl0 : FloatLit := ⟨"0.0"⟩

/-! ## SQLite `LIKE` matching

`store_pdf_data` deduplicates comments with
`comment_text LIKE <first-50-chars> || '%'`.  SQLite `LIKE` is
case-insensitive on ASCII; `%` matches any sequence, `_` any single
character. -/

/-- Case-insensitive character comparison used by SQLite `LIKE`. -/
def likeCharEq (p c : Char) : Bool := p.toLower == c.toLower

/-- Fuel-driven SQLite `LIKE` matcher.  Every recursive call strictly
decreases `pattern length + text length`, so fuel equal to that sum is
exhaustive; the fuel only makes the recursion structural (and hence
kernel-computable). -/
def likeMatchF : Nat → List Char → List Char → Bool
  | _, [], t => t.isEmpty
  | 0, _ :: _, _ => false
  | fuel + 1, p :: ps, t =>
    if p = '%' then
      likeMatchF fuel ps t ||
        match t with
        | [] => false
        | _ :: t' => likeMatchF fuel (p :: ps) t'
    else if p = '_' then
      match t with
      | [] => false
      | _ :: t' => likeMatchF fuel ps t'
    else
      match t with
      | [] => false
      | c :: t' => likeCharEq p c && likeMatchF fuel ps t'

/-- SQLite `LIKE` matching of a pattern against a text. -/
def likeMatch (pat t : List Char) : Bool :=
  likeMatchF (pat.length + t.length) pat t

/-- Unfolding equation for `likeMatchF` with positive fuel and a cons
pattern, with the text left arbitrary. -/
theorem likeMatchF_cons (f : Nat) (p : Char) (ps t : List Char) :
    likeMatchF (f + 1) (p :: ps) t =
      if p = '%' then
        likeMatchF f ps t ||
          match t with
          | [] => false
          | _ :: t' => likeMatchF f (p :: ps) t'
      else if p = '_' then
        match t with
        | [] => false
        | _ :: t' => likeMatchF f ps t'
      else
        match t with
        | [] => false
        | c :: t' => likeCharEq p c && likeMatchF f ps t' := by
  rw [likeMatchF.eq_def]

/-- A bare `%` pattern matches any text (given enough fuel). -/
theorem likeMatchF_percent_any (t : List Char) (fuel : Nat)
    (hf : t.length + 1 ≤ fuel) : likeMatchF fuel ['%'] t = true := by
  induction t generalizing fuel with
  | nil =>
    obtain ⟨f, rfl⟩ : ∃ f, fuel = f + 1 := ⟨fuel - 1, by omega⟩
    simp [likeMatchF]
  | cons c t ih =>
    obtain ⟨f, rfl⟩ : ∃ f, fuel = f + 1 := ⟨fuel - 1, by omega⟩
    have hih := ih f (by simp at hf; omega)
    rw [likeMatchF_cons]
    simp [hih]

/-- Prepending the same characters to pattern and text preserves a
`%`-terminated match, given enough fuel. -/
theorem likeMatchF_pre_percent (pre suf : List Char) (fuel : Nat)
    (hf : 2 * pre.length + suf.length + 1 ≤ fuel) :
    likeMatchF fuel (pre ++ ['%']) (pre ++ suf) = true := by
  induction pre generalizing fuel with
  | nil =>
    exact likeMatchF_percent_any suf fuel (by simpa using hf)
  | cons c pre ih =>
    obtain ⟨f, rfl⟩ : ∃ f, fuel = f + 1 := ⟨fuel - 1, by omega⟩
    show likeMatchF (f + 1) (c :: (pre ++ ['%'])) (c :: (pre ++ suf)) = true
    rw [likeMatchF_cons]
    by_cases hpc : c = '%'
    · simp only [if_pos hpc, Bool.or_eq_true]
      right
      show likeMatchF f (c :: (pre ++ ['%'])) (pre ++ suf) = true
      obtain ⟨f2, rfl⟩ : ∃ f2, f = f2 + 1 := ⟨f - 1, by simp at hf; omega⟩
      rw [likeMatchF_cons]
      simp only [if_pos hpc, Bool.or_eq_true]
      left
      exact ih f2 (by simp at hf; omega)
    · by_cases hu : c = '_'
      · simp only [if_neg hpc, if_pos hu]
        exact ih f (by simp at hf; omega)
      · simp only [if_neg hpc, if_neg hu]
        have hcc : likeCharEq c c = true := by simp [likeCharEq]
        simp only [hcc, Bool.true_and]
        exact ih f (by simp at hf; omega)

/-- Appending `%` to a common prefix of pattern and text always
matches. -/
theorem likeMatch_pre_percent (pre suf : List Char) :
    likeMatch (pre ++ ['%']) (pre ++ suf) = true := by
  unfold likeMatch
  apply likeMatchF_pre_percent
  simp [List.length_append]
  omega

/-- A text always matches the pattern built from its own 50-character
prefix followed by `%` — the self-match at the heart of comment
deduplication. -/
theorem likeMatch_self_fifty (s : List Char) :
    likeMatch (s.take 50 ++ ['%']) s = true := by
  have h := likeMatch_pre_percent (s.take 50) (s.drop 50)
  rwa [List.take_append_drop] at h

/-! ## Sentiment estimator (`estimate_sentiment`, pdf_import.py 630-660) -/

/-- Positive keyword list of `estimate_sentiment`. -/
def positive_words : List String :=
  ["good", "great", "excellent", "helpful", "enjoy", "enjoyed", "clear",
   "useful", "valuable", "effective", "well", "love", "best", "perfect",
   "interesting", "engaging", "engaged", "recommend", "supportive"]

/-- Negative keyword list of `estimate_sentiment`. -/
def negative_words : List String :=
  ["bad", "poor", "difficult", "hard", "confusing", "unclear", "boring",
   "useless", "waste", "ineffective", "terrible", "worst", "dislike",
   "hate", "awful", "frustrating", "disappointed", "struggle"]

/-- Number of keywords contained (as substrings) in the lowercased text:
`sum(1 for word in words if word in text_lower)`. -/
def countMatches (words : List String) (textLower : String) : Nat :=
  (words.filter (fun w => isSubChars w.data textLower.data)).length

/-- `estimate_sentiment`: keyword-count sentiment in `[-1, 1]`. -/
def estimate_sentiment (text : String) : ℚ :=
  let positive_count := countMatches positive_words (pyLower text)
  let negative_count := countMatches negative_words (pyLower text)
  let total := positive_count + negative_count
  if total = 0 then 0
  else (((positive_count : ℚ)) - ((negative_count : ℚ))) / ((total : ℚ))

/-- Claim C6: for every text `t`, `estimate_sentiment t` equals
`(p - n) / (p + n)` where `p` and `n` count the positive and negative
keywords contained case-insensitively as substrings of `t`; it is exactly
`0` when `p = n = 0`, always lies in `[-1, 1]`, equals `1` when `p > 0`
and `n = 0`, and equals `-1` when `n > 0` and `p = 0`.  (Determinism is
immediate: the model is a function of the text alone.) -/
theorem c6_estimate_sentiment_formula (t : String) :
    (countMatches positive_words (pyLower t) = 0 →
      countMatches negative_words (pyLower t) = 0 →
      estimate_sentiment t = 0)
    ∧ (countMatches positive_words (pyLower t) +
          countMatches negative_words (pyLower t) ≠ 0 →
        estimate_sentiment t =
          ((countMatches positive_words (pyLower t) : ℚ) -
              (countMatches negative_words (pyLower t) : ℚ)) /
            ((countMatches positive_words (pyLower t) : ℚ) +
              (countMatches negative_words (pyLower t) : ℚ)))
    ∧ (-1 ≤ estimate_sentiment t ∧ estimate_sentiment t ≤ 1)
    ∧ (0 < countMatches positive_words (pyLower t) →
        countMatches negative_words (pyLower t) = 0 →
        estimate_sentiment t = 1)
    ∧ (0 < countMatches negative_words (pyLower t) →
        countMatches positive_words (pyLower t) = 0 →
        estimate_sentiment t = -1) := by
  set p := countMatches positive_words (pyLower t) with hp
  set n := countMatches negative_words (pyLower t) with hn
  have hs : estimate_sentiment t =
      if p + n = 0 then 0 else ((p : ℚ) - (n : ℚ)) / (((p + n : ℕ)) : ℚ) := rfl
  refine ⟨?_, ?_, ?_, ?_, ?_⟩
  · intro h1 h2
    rw [hs, if_pos (by omega)]
  · intro h
    rw [hs, if_neg h]
    push_cast
    ring_nf
  · rw [hs]
    by_cases h : p + n = 0
    · rw [if_pos h]; norm_num
    · rw [if_neg h]
      have hd : (0 : ℚ) < ((p + n : ℕ) : ℚ) := by
        exact_mod_cast Nat.pos_of_ne_zero h
      have hp0 : (0 : ℚ) ≤ (p : ℚ) := by positivity
      have hn0 : (0 : ℚ) ≤ (n : ℚ) := by positivity
      have hcast : ((p + n : ℕ) : ℚ) = (p : ℚ) + (n : ℚ) := by push_cast; ring
      constructor
      · rw [le_div_iff₀ hd]
        rw [hcast]
        linarith
      · rw [div_le_one hd, hcast]
        linarith
  · intro hppos hn0
    rw [hs, if_neg (by omega)]
    rw [hn0]
    have hpq : ((p : ℚ)) ≠ 0 := by
      exact_mod_cast Nat.pos_iff_ne_zero.mp hppos
    push_cast
    field_simp
  · intro hnpos hp0
    rw [hs, if_neg (by omega)]
    rw [hp0]
    have hnq : ((n : ℚ)) ≠ 0 := by
      exact_mod_cast Nat.pos_iff_ne_zero.mp hnpos
    push_cast
    field_simp

/-- Witness for C6 at concrete inputs: a purely positive comment scores
`1`, a purely negative one `-1`, and a keyword-free one `0`. -/
theorem c6_estimate_sentiment_formula_witness :
    estimate_sentiment "great" = 1 ∧ estimate_sentiment "bad" = -1 ∧
      estimate_sentiment "zzz" = 0 :=
  ⟨(c6_estimate_sentiment_formula "great").2.2.2.1 (by decide) (by decide),
   (c6_estimate_sentiment_formula "bad").2.2.2.2 (by decide) (by decide),
   (c6_estimate_sentiment_formula "zzz").1 (by decide) (by decide)⟩

/-! ## Benchmark token extraction (`extract_benchmarks`, pdf_import.py 476-551)

The two `re.findall` calls of the benchmark recognizer are modelled by
deterministic scanners.  For the concrete patterns `(\d+\.\d+)%` and
`\b(\d{2,})\b` greedy repetition followed by a character the repeated
class cannot match needs no backtracking, so maximal-run scanning is the
exact `re` semantics. -/

/-- Sum of the two parts of `takeDigitRun`. -/
theorem takeDigitRun_length (l : List Char) :
    (takeDigitRun l).1.length + (takeDigitRun l).2.length = l.length := by
  induction l with
  | nil => simp [takeDigitRun]
  | cons c rest ih =>
    simp only [takeDigitRun]
    split
    · simp only [List.length_cons]
      omega
    · simp

/-- Try to match `(\d+\.\d+)%` at the start of `s`; on success return the
captured group (without the `%`) and the remainder after the `%`. -/
def pctAt (s : List Char) : Option (List Char × List Char) :=
  let d1 := (takeDigitRun s).1
  let r1 := (takeDigitRun s).2
  if d1.isEmpty then none
  else
    match r1 with
    | '.' :: r2 =>
      let d2 := (takeDigitRun r2).1
      let r3 := (takeDigitRun r2).2
      if d2.isEmpty then none
      else
        match r3 with
        | '%' :: r4 => some (d1 ++ '.' :: d2, r4)
        | _ => none
    | _ => none

theorem pctAt_some_length {s g rest : List Char}
    (h : pctAt s = some (g, rest)) : rest.length < s.length := by
  have h1 := takeDigitRun_length s
  unfold pctAt at h
  simp only at h
  split at h
  · simp at h
  · rename_i hd1
    split at h
    · rename_i r2 heq1
      split at h
      · simp at h
      · rename_i hd2
        have h3 := takeDigitRun_length r2
        split at h
        · rename_i r4 heq2
          simp only [Option.some.injEq, Prod.mk.injEq] at h
          have hr : r4 = rest := h.2
          subst hr
          have hd1n : (takeDigitRun s).1 ≠ [] := by simpa using hd1
          have hd1l : 0 < (takeDigitRun s).1.length := List.length_pos.mpr hd1n
          rw [heq1] at h1
          rw [heq2] at h3
          simp only [List.length_cons] at h1 h3
          omega
        · simp at h
    · simp at h

/-- Fuel-driven scan for `re.findall(r"(\d+\.\d+)%", text)`.  Every step
consumes at least one character (`pctAt_some_length`), so fuel equal to
the text length makes the scan exhaustive; the fuel only makes the
recursion structural (and hence kernel-computable). -/
def findPctsF : Nat → List Char → List (List Char)
  | 0, _ => []
  | _, [] => []
  | fuel + 1, c :: cs =>
    match pctAt (c :: cs) with
    | some gr => gr.1 :: findPctsF fuel gr.2
    | none => findPctsF fuel cs

/-- `re.findall(r"(\d+\.\d+)%", text)`: all percentage tokens in
left-to-right order; on a failed match the scan advances one character,
on a success it resumes after the `%`. -/
def findPcts (s : List Char) : List (List Char) := findPctsF s.length s

/-- Word boundary `\b` after a digit run: end of text or a non-word
character. -/
def boundaryAfter : List Char → Bool
  | [] => true
  | c :: _ => !pyWordChar c

/-- Fuel-driven scanner for `re.findall(r"\b(\d{2,})\b", text)`.  The flag
carries whether the previous character was a word character (for the
leading `\b`); a maximal digit run is accepted when it has length at
least two and word boundaries on both sides.  No match can start inside
a digit run, so a rejected run is skipped whole.  Fuel equal to the text
length is exhaustive, as every step consumes at least one character. -/
def findIntsF : Nat → Bool → List Char → List (List Char)
  | 0, _, _ => []
  | _, _, [] => []
  | fuel + 1, prevW, c :: cs =>
    if c.isDigit then
      let run := (takeDigitRun (c :: cs)).1
      let rest := (takeDigitRun (c :: cs)).2
      if !prevW && decide (2 ≤ run.length) && boundaryAfter rest then
        run :: findIntsF fuel true rest
      else
        findIntsF fuel true rest
    else
      findIntsF fuel (pyWordChar c) cs

/-- All `\b\d{2,}\b` integer tokens of a text, left to right. -/
def findIntTokens (s : List Char) : List (List Char) := findIntsF s.length false s

/-- One row of the database-friendly benchmark list produced by
`extract_benchmarks`. -/
structure BenchmarkEntry where
  group_type : String
  group_name : String
  question_label : String
  percent_agree : FloatLit
  total_n : Nat
  deriving DecidableEq, Repr

/-- Default entry used only as the `getD` fallback in statements. -/
def dfltEntry : BenchmarkEntry := ⟨"", "", "", fl0, 0⟩

/-- The fixed benchmark question order. -/
def benchmark_categories : List String :=
  ["Engaged", "Resources", "Support", "Assessments", "Expectations", "Overall"]

/-- Group-type standardization of `extract_benchmarks` (lines 533-540):
substring tests against the *level key* string. -/
def standardizeGroupType (std_group_type : String) : String :=
  if isSubChars "School".data std_group_type.data then "School"
  else if isSubChars "Faculty".data std_group_type.data then "Faculty"
  else if isSubChars "University".data std_group_type.data
      || isSubChars "Curtin".data std_group_type.data then "University"
  else std_group_type

/-- Per-level benchmark rows (`extract_benchmarks` lines 522-549): zip the
percentage tokens of the level's text span against the six categories in
order, with the i-th integer token as sample size (0 if missing). -/
def levelEntries (std_group_type : String) (level_text : List Char) :
    List BenchmarkEntry :=
  let percentages := findPcts level_text
  let n_values := findIntTokens level_text
  benchmark_categories.enum.filterMap fun ic =>
    if ic.1 < percentages.length then
      some { group_type := standardizeGroupType std_group_type
             group_name := std_group_type
             question_label := ic.2
             percent_agree := ⟨String.mk (percentages.getD ic.1 [])⟩
             total_n :=
               if ic.1 < n_values.length then
                 digitsToNat (n_values.getD ic.1 [])
               else 0 }
    else none

/-- Case-insensitive literal prefix test. -/
def ciHasPre (lit s : List Char) : Bool :=
  (pyLowerChars lit).isPrefixOf (pyLowerChars s)

/-- Case-insensitive literal matcher at a position: on success return the
matched source text and the remainder. -/
def ciLitAt (lit s : List Char) : Option (List Char × List Char) :=
  if ciHasPre lit s then some (s.take lit.length, s.drop lit.length)
  else none

/-- The five benchmark level label patterns of `extract_benchmarks`. -/
inductive LevelPat
  | overall
  | unitLv
  | school
  | faculty
  | curtin
  deriving DecidableEq, Repr

/-- Match `\s*-\s*` followed by a tail matcher (all deterministic: the
whitespace runs are maximal and are followed by characters the class
cannot match). -/
def wsDashWs (s : List Char)
    (tail : List Char → Option (List Char × List Char)) :
    Option (List Char × List Char) :=
  let w1 := s.takeWhile pySpace
  match s.dropWhile pySpace with
  | '-' :: r3 =>
    let w2 := r3.takeWhile pySpace
    let r4 := r3.dropWhile pySpace
    match tail r4 with
    | some (m, r) => some (w1 ++ '-' :: (w2 ++ m), r)
    | none => none
  | _ => none

/-- Match `[A-Z]{4}\d+` under `re.IGNORECASE` (so any ASCII letter)
at a position. -/
def alpha4DigitsAt (s : List Char) : Option (List Char × List Char) :=
  let l4 := s.take 4
  if l4.length = 4 && l4.all Char.isAlpha then
    let r := s.drop 4
    let d := (takeDigitRun r).1
    if d.isEmpty then none
    else some (l4 ++ d, (takeDigitRun r).2)
  else none

/-- Match one benchmark level label pattern at a position
(case-insensitive, as in the source). -/
def levelPatAt : LevelPat → List Char → Option (List Char × List Char)
  | .overall, s => ciLitAt "Overall".data s
  | .unitLv, s =>
    match ciLitAt "Unit".data s with
    | some (m1, r1) =>
      match wsDashWs r1 alpha4DigitsAt with
      | some (m2, r2) => some (m1 ++ m2, r2)
      | none => none
    | none => none
  | .school, s =>
    match ciLitAt "School".data s with
    | some (m1, r1) =>
      match wsDashWs r1 (ciLitAt "School of".data) with
      | some (m2, r2) => some (m1 ++ m2, r2)
      | none => none
    | none => none
  | .faculty, s =>
    match ciLitAt "Faculty".data s with
    | some (m1, r1) =>
      match wsDashWs r1 (ciLitAt "Faculty of".data) with
      | some (m2, r2) => some (m1 ++ m2, r2)
      | none => none
    | none => none
  | .curtin, s => ciLitAt "Curtin".data s

/-- Lookahead `(?=(?:Overall|$))` of the level-span regex: the next text
starts with `Overall` (case-insensitively), or the position is at the end
of the string, or just before its final newline. -/
def lookOverallOrEnd (s : List Char) : Bool :=
  ciHasPre "Overall".data s || s.isEmpty || s == ['\n']

/-- Lazy `.*?` (DOTALL) up to the `Overall`-or-end lookahead. -/
def lazySpanToOverall : List Char → Option (List Char)
  | [] => if lookOverallOrEnd [] then some [] else none
  | c :: t =>
    if lookOverallOrEnd (c :: t) then some []
    else (lazySpanToOverall t).map (fun m => c :: m)

/-- `re.search(f"({level_pattern}.*?)(?=(?:Overall|$))", s, DOTALL | CI)`:
first position where the level pattern matches, extended lazily to the
next `Overall` or the end. -/
def findLevelSpan (p : LevelPat) : List Char → Option (List Char)
  | [] =>
    match levelPatAt p [] with
    | some (m, r) => (lazySpanToOverall r).map (fun mid => m ++ mid)
    | none => none
  | c :: t =>
    match levelPatAt p (c :: t) with
    | some (m, r) => (lazySpanToOverall r).map (fun mid => m ++ mid)
    | none => findLevelSpan p t

/-- All suffixes positioned right after an occurrence of a literal,
left to right. -/
def suffixesAfterLit (lit : List Char) : List Char → List (List Char)
  | [] => []
  | c :: cs =>
    (if lit.isPrefixOf (c :: cs) then [(c :: cs).drop lit.length] else []) ++
      suffixesAfterLit lit cs

/-- Start of one of the five group alternatives (case-sensitive, as in
the section regex of `extract_benchmarks`). -/
def altStartsAt (s : List Char) : Bool :=
  ["Overall".data, "Unit".data, "School".data, "Faculty".data,
   "Curtin".data].any (fun a => a.isPrefixOf s)

/-- Suffix at the first position starting with a group alternative. -/
def suffixAtFirstAlt : List Char → Option (List Char)
  | [] => none
  | c :: cs =>
    if altStartsAt (c :: cs) then some (c :: cs) else suffixAtFirstAlt cs

/-- The section regex of `extract_benchmarks` (line 508):
`Benchmarks.*Percentage Agreement.*?((?:Overall|Unit|School|Faculty|Curtin).*)`
with DOTALL.  The greedy `.*` binds to the last `Percentage Agreement`
(after the first `Benchmarks`) that still has a group alternative after
it; the group then runs from that alternative to the end of the text. -/
def benchmarkSectionText (text : List Char) : Option (List Char) :=
  match suffixesAfterLit "Benchmarks".data text with
  | [] => none
  | r :: _ =>
    ((suffixesAfterLit "Percentage Agreement".data r).reverse).findSome?
      suffixAtFirstAlt

/-- `re.search(r'([A-Z]{4}\d+)', text)` (case-sensitive): first
four-uppercase-letters-plus-digits token. -/
def upper4DigitsAt (s : List Char) : Option (List Char) :=
  let l4 := s.take 4
  if l4.length = 4 && l4.all Char.isUpper then
    let d := (takeDigitRun (s.drop 4)).1
    if d.isEmpty then none else some (l4 ++ d)
  else none

/-- Scan for the first `[A-Z]{4}\d+` token. -/
def searchUpperCode : List Char → Option (List Char)
  | [] => none
  | c :: cs =>
    match upper4DigitsAt (c :: cs) with
    | some m => some m
    | none => searchUpperCode cs

/-- The level key/pattern table of `extract_benchmarks` (lines 499-505),
in dict insertion order. -/
def benchLevelKeys (ucode : String) : List (String × LevelPat) :=
  [("Overall", .overall),
   (String.mk ("Unit - ".data ++ ucode.data), .unitLv),
   ("School", .school),
   ("Faculty", .faculty),
   ("University", .curtin)]

/-- `extract_benchmarks` (pdf_import.py 476-551): locate the benchmark
section, then for each level key extract its text span and zip its
percentage and integer tokens against the six categories. -/
def extract_benchmarks (text : List Char) : List BenchmarkEntry :=
  match benchmarkSectionText text with
  | none => []
  | some btext =>
    let ucode :=
      match searchUpperCode text with
      | some m => String.mk m
      | none => ""
    (benchLevelKeys ucode).foldl
      (fun acc kp =>
        match findLevelSpan kp.2 btext with
        | some span => acc ++ levelEntries kp.1 span
        | none => acc) []

/-- A list of length six is literally a six-element list. -/
theorem list_len_six {α : Type} (l : List α) (h : l.length = 6) :
    ∃ a b c d e f, l = [a, b, c, d, e, f] := by
  rcases l with _ | ⟨a, l⟩; · simp at h
  rcases l with _ | ⟨b, l⟩; · simp at h
  rcases l with _ | ⟨c, l⟩; · simp at h
  rcases l with _ | ⟨d, l⟩; · simp at h
  rcases l with _ | ⟨e, l⟩; · simp at h
  rcases l with _ | ⟨f, l⟩; · simp at h
  rcases l with _ | ⟨g, l⟩
  · exact ⟨a, b, c, d, e, f, rfl⟩
  · simp at h

/-- Claim C2: for a benchmark-level text span containing exactly six
percentage tokens (`(\d+\.\d+)%`) and exactly six integer tokens
(`\b\d{2,}\b`) in left-to-right order, `extract_benchmarks` assigns the
i-th percentage token as `percent_agree` and the i-th integer token as
`total_n` of the i-th question in the fixed order
{Engaged, Resources, Support, Assessments, Expectations, Overall}. -/
theorem c2_benchmark_zip (k : String) (lt : List Char)
    (hp : (findPcts lt).length = 6) (hn : (findIntTokens lt).length = 6) :
    (levelEntries k lt).length = 6 ∧
    ∀ i, i < 6 →
      ((levelEntries k lt).getD i dfltEntry).question_label =
          benchmark_categories.getD i "" ∧
      ((levelEntries k lt).getD i dfltEntry).percent_agree =
          ⟨String.mk ((findPcts lt).getD i [])⟩ ∧
      ((levelEntries k lt).getD i dfltEntry).total_n =
          digitsToNat ((findIntTokens lt).getD i []) := by
  obtain ⟨p0, p1, p2, p3, p4, p5, hps⟩ := list_len_six (findPcts lt) hp
  obtain ⟨n0, n1, n2, n3, n4, n5, hns⟩ := list_len_six (findIntTokens lt) hn
  have hl : levelEntries k lt =
      [⟨standardizeGroupType k, k, "Engaged", ⟨String.mk p0⟩, digitsToNat n0⟩,
       ⟨standardizeGroupType k, k, "Resources", ⟨String.mk p1⟩, digitsToNat n1⟩,
       ⟨standardizeGroupType k, k, "Support", ⟨String.mk p2⟩, digitsToNat n2⟩,
       ⟨standardizeGroupType k, k, "Assessments", ⟨String.mk p3⟩,
         digitsToNat n3⟩,
       ⟨standardizeGroupType k, k, "Expectations", ⟨String.mk p4⟩,
         digitsToNat n4⟩,
       ⟨standardizeGroupType k, k, "Overall", ⟨String.mk p5⟩,
         digitsToNat n5⟩] := by
    unfold levelEntries
    rw [hps, hns]
    simp [benchmark_categories, List.enum, List.enumFrom]
  refine ⟨by rw [hl]; rfl, ?_⟩
  intro i hi
  interval_cases i <;>
    simp [hl, hps, hns, benchmark_categories]

/-- Concrete benchmark-level span used by the C2 witness: six percentage
tokens and six integer tokens. -/
def c2SpanText : List Char :=
  "Overall 8.5% 7.6% 8.1% 7.9% 8.3% 8.8% 120 118 119 117 121 116".data

/-- Witness for C2: the zip on a concrete six-and-six span. -/
theorem c2_benchmark_zip_witness :
    (levelEntries "Overall" c2SpanText).length = 6 ∧
      ((levelEntries "Overall" c2SpanText).getD 2 dfltEntry).question_label =
        "Support" ∧
      ((levelEntries "Overall" c2SpanText).getD 2 dfltEntry).total_n = 119 := by
  have h := c2_benchmark_zip "Overall" c2SpanText (by decide) (by decide)
  refine ⟨h.1, ?_, ?_⟩
  · exact (h.2 2 (by omega)).1.trans (by decide)
  · exact (h.2 2 (by omega)).2.2.trans (by decide)

/-! ## Data model

Rows of the SQLite schema (`database.py` / the columns used by the
INSERT statements of `store_pdf_data`), and the merged extraction record
returned by `extract_info_from_pdf`. -/

structure DisciplineRow where
  discipline_code : String
  discipline_name : String
  deriving DecidableEq, Repr

structure UnitRow where
  unit_code : String
  unit_name : String
  discipline_code : String
  deriving DecidableEq, Repr

structure UnitOfferingRow where
  unit_offering_id : Nat
  unit_code : String
  semester : Nat
  year : Nat
  location : String
  availability : String
  deriving DecidableEq, Repr

structure SurveyEventRow where
  event_id : Nat
  month : Nat
  year : Nat
  description : String
  deriving DecidableEq, Repr

structure QuestionRow where
  question_id : Nat
  question_text : String
  deriving DecidableEq, Repr

structure UnitSurveyRow where
  survey_id : Nat
  unit_offering_id : Nat
  event_id : Nat
  enrolments : Nat
  responses : Nat
  response_rate : FloatLit
  overall_experience : FloatLit
  deriving DecidableEq, Repr

structure UnitSurveyResultRow where
  result_id : Nat
  survey_id : Nat
  question_id : Nat
  strongly_disagree : Nat
  disagree : Nat
  neutral : Nat
  agree : Nat
  strongly_agree : Nat
  unable_to_judge : Nat
  percent_agree : FloatLit
  deriving DecidableEq, Repr

structure BenchmarkRow where
  benchmark_id : Nat
  event_id : Nat
  question_id : Nat
  group_type : String
  group_name : String
  percent_agree : FloatLit
  total_n : Nat
  deriving DecidableEq, Repr

structure CommentRow where
  comment_id : Nat
  survey_id : Nat
  comment_text : String
  sentiment_score : ℚ
  deriving DecidableEq

/-- The database: one list of rows per table.  Row ids are assigned
sequentially on insert (`cur.lastrowid`). -/
structure DB where
  discipline : List DisciplineRow
  unit : List UnitRow
  unit_offering : List UnitOfferingRow
  survey_event : List SurveyEventRow
  question : List QuestionRow
  unit_survey : List UnitSurveyRow
  unit_survey_result : List UnitSurveyResultRow
  benchmark : List BenchmarkRow
  comment : List CommentRow
  deriving DecidableEq

/-- A comment together with its sentiment score (as produced by
`extract_info_from_pdf` / `extract_comments`). -/
structure CommentEntry where
  comment_text : String
  sentiment_score : ℚ
  deriving DecidableEq

/-- A detailed per-question distribution row of the merged record. -/
structure DetailedEntry where
  question_text : String
  strongly_disagree : Nat
  disagree : Nat
  neutral : Nat
  agree : Nat
  strongly_agree : Nat
  unable_to_judge : Nat
  percent_agree : FloatLit
  deriving DecidableEq, Repr

/-- The merged record returned by `extract_info_from_pdf`
(pdf_import.py 849-865). -/
structure Record where
  unit_code : String
  unit_name : String
  semester : Nat
  year : Nat
  location : String
  availability : String
  discipline_code : String
  discipline_name : String
  enrollments : Nat
  responses : Nat
  response_rate : FloatLit
  overall_experience : FloatLit
  benchmarks : List BenchmarkEntry
  comments : List CommentEntry
  detailed_results : List DetailedEntry
  deriving DecidableEq

/-! ## Persistence (`store_pdf_data`, pdf_import.py 873-1179)

Each numbered step of `store_pdf_data` is one function on the table(s)
it touches.  The steps read and write pairwise disjoint tables (and all
read-only uses of `question` happen after the last write preceding them),
so passing each step its slice of the *initial* database is equivalent to
the sequential mutation of the source. -/

/-- Step 1, `INSERT OR IGNORE INTO discipline` (primary key
`discipline_code`). -/
def insDiscipline (data : Record) (t : List DisciplineRow) :
    List DisciplineRow :=
  if t.any (fun r => r.discipline_code == data.discipline_code) then t
  else t ++ [⟨data.discipline_code, data.discipline_name⟩]

/-- Step 2, `INSERT OR IGNORE INTO unit` (primary key `unit_code`). -/
def insUnit (data : Record) (t : List UnitRow) : List UnitRow :=
  if t.any (fun r => r.unit_code == data.unit_code) then t
  else t ++ [⟨data.unit_code, data.unit_name, data.discipline_code⟩]

/-- The `UNIQUE(unit_code, semester, year, location, availability)`
key of `unit_offering`. -/
def offeringMatches (data : Record) (r : UnitOfferingRow) : Bool :=
  r.unit_code == data.unit_code && r.semester == data.semester &&
    r.year == data.year && r.location == data.location &&
    r.availability == data.availability

/-- Step 3, `INSERT OR IGNORE INTO unit_offering`. -/
def insOffering (data : Record) (t : List UnitOfferingRow) :
    List UnitOfferingRow :=
  if t.any (offeringMatches data) then t
  else
    t ++ [⟨t.length + 1, data.unit_code, data.semester, data.year,
      data.location, data.availability⟩]

/-- `SELECT unit_offering_id FROM unit_offering WHERE ...` +
`fetchone()`. -/
def lookupOfferingId (data : Record) (t : List UnitOfferingRow) :
    Option Nat :=
  (t.find? (offeringMatches data)).map (·.unit_offering_id)

/-- `month = 5 if data['semester'] == 1 else 10` (line 915). -/
def monthForSemester (s : Nat) : Nat := if s = 1 then 5 else 10

/-- `description = f"Semester {semester} {year} Survey"`. -/
def eventDescription (data : Record) : String :=
  "Semester " ++ toString data.semester ++ " " ++ toString data.year ++
    " Survey"

/-- Step 4: get-or-create the survey event keyed by `(year, month)`
(lines 914-931). -/
def getOrCreateEvent (data : Record) (t : List SurveyEventRow) :
    Nat × List SurveyEventRow :=
  let m := monthForSemester data.semester
  match t.find? (fun e => e.year == data.year && e.month == m) with
  | some e => (e.event_id, t)
  | none =>
    let eid := t.length + 1
    (eid, t ++ [⟨eid, m, data.year, eventDescription data⟩])

/-- Step 5: get-or-create the unit survey keyed by
`(unit_offering_id, event_id)` (lines 933-947). -/
def getOrCreateSurvey (data : Record) (oid eid : Nat)
    (t : List UnitSurveyRow) : Nat × List UnitSurveyRow :=
  match t.find? (fun s => s.unit_offering_id == oid && s.event_id == eid) with
  | some s => (s.survey_id, t)
  | none =>
    let sid := t.length + 1
    (sid, t ++ [⟨sid, oid, eid, data.enrollments, data.responses,
      data.response_rate, data.overall_experience⟩])

/-- The static benchmark label → question text map (lines 954-961). -/
def question_label_map : List (String × String) :=
  [("Engaged", "I was engaged by the learning activities."),
   ("Resources", "The resources provided helped me to learn."),
   ("Support", "My learning was supported."),
   ("Assessments", "Assessments helped me to demonstrate my learning."),
   ("Expectations", "I knew what was expected of me."),
   ("Overall", "Overall, this unit was a worthwhile experience.")]

/-- `question_label_map.get(label)`. -/
def labelToText (label : String) : Option String :=
  (question_label_map.find? (fun p => p.1 == label)).map (·.2)

/-- Python-dict upsert: replace the value in place if the key exists,
else append. -/
def upsertAssoc (l : List (String × Nat)) (k : String) (v : Nat) :
    List (String × Nat) :=
  if l.any (fun p => p.1 == k) then
    l.map (fun p => if p.1 == k then (p.1, v) else p)
  else l ++ [(k, v)]

/-- `{row[1]: row[0] for row in cur.fetchall()}` over the `question`
table: keys in first-occurrence order, later duplicates overwrite the
value. -/
def questionDict (qs : List QuestionRow) : List (String × Nat) :=
  qs.foldl (fun acc q => upsertAssoc acc q.question_text q.question_id) []

/-- Python dict lookup. -/
def dictLookup (d : List (String × Nat)) (k : String) : Option Nat :=
  (d.find? (fun p => p.1 == k)).map (·.2)

/-- Step 7 question resolution: label → canonical text → id via the
question dict; `continue` on failure. -/
def resolveBenchQid (qs : List QuestionRow) (label : String) : Option Nat :=
  match labelToText label with
  | none => none
  | some qt => dictLookup (questionDict qs) qt

/-- The `(event_id, question_id, group_type)` uniqueness test of the
step-7 existence check. -/
def benchKey (eid qid : Nat) (gt : String) (r : BenchmarkRow) : Bool :=
  r.event_id == eid && r.question_id == qid && r.group_type == gt

/-- Step 7 loop (lines 963-986): per benchmark, resolve the question,
skip if a row for `(event_id, question_id, group_type)` exists, else
insert; returns `benchmarks_added` and the new table. -/
def benchLoop (eid : Nat) (qs : List QuestionRow) :
    List BenchmarkEntry → List BenchmarkRow → Nat → Nat × List BenchmarkRow
  | [], t, acc => (acc, t)
  | b :: bs, t, acc =>
    match resolveBenchQid qs b.question_label with
    | none => benchLoop eid qs bs t acc
    | some qid =>
      if t.any (benchKey eid qid b.group_type) then
        benchLoop eid qs bs t acc
      else
        benchLoop eid qs bs
          (t ++ [⟨t.length + 1, eid, qid, b.group_type, b.group_name,
            b.percent_agree, b.total_n⟩]) (acc + 1)

/-- The static PDF-question → database-question map of step 8
(lines 997-1004). -/
def question_mapping : List (String × String) :=
  [("I was engaged by the learning activities",
    "I was engaged by the learning activities."),
   ("The resources provided helped me to learn",
    "The resources provided helped me to learn."),
   ("My learning was supported", "My learning was supported."),
   ("Assessments helped me to demonstrate my learning",
    "Assessments helped me to demonstrate my learning."),
   ("I knew what was expected of me", "I knew what was expected of me."),
   ("Overall, this unit was a worthwhile experience",
    "Overall, this unit was a worthwhile experience.")]

/-- `question_mapping.get(question_text, question_text)`. -/
def mappedQuestionText (question_text : String) : String :=
  match question_mapping.find? (fun p => p.1 == question_text) with
  | some p => p.2
  | none => question_text

/-- `SELECT question_id FROM question WHERE question_text = ?` +
`fetchone()`: the first row with that exact text. -/
def firstRowIdByText (qs : List QuestionRow) (t : String) : Option Nat :=
  (qs.find? (fun q => q.question_text == t)).map (·.question_id)

/-- Python `str.endswith('.')`. -/
def endsWithDot (s : String) : Bool := s.data.getLast? == some '.'

/-- `' '.join(words)`. -/
def joinWithSpace : List (List Char) → List Char
  | [] => []
  | [w] => w
  | w :: ws => w ++ ' ' :: joinWithSpace ws

/-- `' '.join(question_text.split()[:3])`. -/
def firstFewWords (s : String) : List Char :=
  joinWithSpace ((pySplitWs s.data).take 3)

/-- Step 8 keyword fallback (lines 1052-1064): classify by substring of
the lowercased question text. -/
def keywordQuestionText (qlow : List Char) : Option String :=
  if isSubChars "engaged".data qlow then
    some "I was engaged by the learning activities."
  else if isSubChars "resources".data qlow then
    some "The resources provided helped me to learn."
  else if isSubChars "support".data qlow then
    some "My learning was supported."
  else if isSubChars "assessments".data qlow
      || isSubChars "demonstrate".data qlow then
    some "Assessments helped me to demonstrate my learning."
  else if isSubChars "expect".data qlow then
    some "I knew what was expected of me."
  else if isSubChars "overall".data qlow
      || isSubChars "worthwhile".data qlow then
    some "Overall, this unit was a worthwhile experience."
  else none

/-- Step 8 partial-match fallback (lines 1072-1080): first dict entry
whose 20-character prefix is contained in the question text or vice
versa, case-insensitively. -/
def partialMatchQid (qs : List QuestionRow) (question_text : String) :
    Option Nat :=
  ((questionDict qs).find? (fun p =>
      isSubChars (pyLowerChars (p.1.data.take 20))
        (pyLowerChars question_text.data) ||
      isSubChars (pyLowerChars (question_text.data.take 20))
        (pyLowerChars p.1.data))).map (·.2)

/-- Step 8 layered question resolution (lines 1014-1097): exact match on
the mapped text, then period-insensitive matches, then a unique `LIKE`
prefix match on the first three words, then keyword classification, then
the partial 20-character match; `None` means the row is skipped. -/
def resolveDetailedQid (qs : List QuestionRow) (question_text : String) :
    Option Nat :=
  let mapped := mappedQuestionText question_text
  match firstRowIdByText qs mapped with
  | some qid => some qid
  | none =>
    match
      (if endsWithDot mapped then
        firstRowIdByText qs (String.mk mapped.data.dropLast)
      else none) with
    | some qid => some qid
    | none =>
      match
        (if !endsWithDot mapped then
          firstRowIdByText qs (String.mk (mapped.data ++ ['.']))
        else none) with
      | some qid => some qid
      | none =>
        let rows := qs.filter (fun q =>
          likeMatch (firstFewWords question_text ++ ['%'])
            q.question_text.data)
        match (if rows.length = 1 then
            (rows.head?).map (·.question_id)
          else none) with
        | some qid => some qid
        | none =>
          match keywordQuestionText (pyLowerChars question_text.data) with
          | some qt =>
            match dictLookup (questionDict qs) qt with
            | some qid => some qid
            | none => partialMatchQid qs question_text
          | none => partialMatchQid qs question_text

/-- The `(survey_id, question_id)` uniqueness test of the step-8
existence check. -/
def detKey (sid qid : Nat) (row : UnitSurveyResultRow) : Bool :=
  row.survey_id == sid && row.question_id == qid

/-- The no-exception oracle. -/
def noFault : Nat → Bool := fun _ => false

/-- Step 8 loop (lines 1014-1134): per detailed row, resolve the
question, skip if a row for `(survey_id, question_id)` exists, else
attempt the insert.  The `INSERT INTO unit_survey_result` alone sits in
an inner `try/except` (lines 1111-1134) whose handler only prints: an
exception there — `insFault i` for the `i`-th data row — is swallowed,
the row is neither inserted nor counted, and the loop continues.
Everything else in the loop (the SELECTs, the question resolution) runs
under the outer handler. -/
def detLoop (insFault : Nat → Bool) (sid : Nat) (qs : List QuestionRow) :
    List DetailedEntry → Nat → List UnitSurveyResultRow → Nat →
      Nat × List UnitSurveyResultRow
  | [], _, t, acc => (acc, t)
  | r :: rs, i, t, acc =>
    match resolveDetailedQid qs r.question_text with
    | none => detLoop insFault sid qs rs (i + 1) t acc
    | some qid =>
      if t.any (detKey sid qid)
      then detLoop insFault sid qs rs (i + 1) t acc
      else if insFault i then detLoop insFault sid qs rs (i + 1) t acc
      else
        detLoop insFault sid qs rs (i + 1)
          (t ++ [⟨t.length + 1, sid, qid, r.strongly_disagree, r.disagree,
            r.neutral, r.agree, r.strongly_agree, r.unable_to_judge,
            r.percent_agree⟩]) (acc + 1)

/-- The `LIKE` pattern used to deduplicate a comment: its first 50
characters followed by `%` (line 1142). -/
def commentPattern (c : CommentEntry) : List Char :=
  c.comment_text.data.take 50 ++ ['%']

/-- The near-duplicate test of the step-9 existence check: same survey
and a `LIKE` match on the comment's 50-character prefix. -/
def comKey (sid : Nat) (c : CommentEntry) (r : CommentRow) : Bool :=
  r.survey_id == sid && likeMatch (commentPattern c) r.comment_text.data

/-- Step 9 loop (lines 1136-1153): skip a comment when one with the same
50-character prefix already exists for this survey, else insert. -/
def comLoop (sid : Nat) :
    List CommentEntry → List CommentRow → Nat → Nat × List CommentRow
  | [], t, acc => (acc, t)
  | c :: cs, t, acc =>
    if t.any (comKey sid c)
    then comLoop sid cs t acc
    else
      comLoop sid cs
        (t ++ [⟨t.length + 1, sid, c.comment_text, c.sentiment_score⟩])
        (acc + 1)

/-- Result dictionary of `store_pdf_data`. -/
structure StoreResult where
  success : Bool
  message : String
  unit_code : String
  semester : Nat
  year : Nat
  benchmarks_added : Nat
  detailed_results_added : Nat
  comments_added : Nat
  deriving DecidableEq

/-- The failure dictionary returned from the `except` handler. -/
def failResult (m : String) : StoreResult := ⟨false, m, "", 0, 0, 0, 0, 0⟩

/-- `store_pdf_data` with exception injection.  `fault k = true` models
an exception raised under the *outer* `try` while executing step `k`
(every statement of the function except the one inner-guarded INSERT);
the outer `except` handler then rolls the transaction back (the returned
database is the input one) and reports failure.  `insFault i = true`
models an exception in the `unit_survey_result` INSERT of the `i`-th
detailed row, which its inner handler (lines 1111-1134) swallows: the
run continues and commits.  The impossible `fetchone()[0]` failure after
the offering upsert is modelled like an outer exception. -/
def store_pdf_data_f (fault : Nat → Bool) (insFault : Nat → Bool)
    (data : Record) (db : DB) : StoreResult × DB :=
  if fault 1 then (failResult "step 1", db) else
  let d1 := insDiscipline data db.discipline
  if fault 2 then (failResult "step 2", db) else
  let u1 := insUnit data db.unit
  if fault 3 then (failResult "step 3", db) else
  let o1 := insOffering data db.unit_offering
  match lookupOfferingId data o1 with
  | none => (failResult "offering lookup", db)
  | some oid =>
    if fault 4 then (failResult "step 4", db) else
    let ev := getOrCreateEvent data db.survey_event
    if fault 5 then (failResult "step 5", db) else
    let sv := getOrCreateSurvey data oid ev.1 db.unit_survey
    if fault 6 then (failResult "step 6", db) else
    if fault 7 then (failResult "step 7", db) else
    let bl := benchLoop ev.1 db.question data.benchmarks db.benchmark 0
    if fault 8 then (failResult "step 8", db) else
    let dl := detLoop insFault sv.1 db.question data.detailed_results 0
      db.unit_survey_result 0
    if fault 9 then (failResult "step 9", db) else
    let cl := comLoop sv.1 data.comments db.comment 0
    (⟨true, "", data.unit_code, data.semester, data.year, bl.1, dl.1, cl.1⟩,
     ⟨d1, u1, o1, ev.2, db.question, sv.2, dl.2, bl.2, cl.2⟩)

/-- `store_pdf_data` (no exception occurs). -/
def store_pdf_data (data : Record) (db : DB) : StoreResult × DB :=
  store_pdf_data_f noFault noFault data db

/-! ## Batch driver (`process_pdf` / `process_folder`,
pdf_import.py 1182-1293) -/

/-- One file of a batch: its name, the outcome of
`extract_info_from_pdf` (`none` models extraction failure, after which
`process_pdf` returns without touching the database), and the two
exception oracles for its store step. -/
structure FileItem where
  name : String
  extracted : Option Record
  fault : Nat → Bool
  insFault : Nat → Bool

/-- One entry of the `details` list of `process_folder`. -/
structure FileDetailEntry where
  file : String
  success : Bool
  deriving DecidableEq

/-- The accumulated results of `process_folder`. -/
structure FolderResults where
  total : Nat
  successful : Nat
  failed : Nat
  details : List FileDetailEntry
  deriving DecidableEq

/-- `process_pdf` for one file: extraction failure reports failure
without touching the database; otherwise the store result decides. -/
def processItem (item : FileItem) (db : DB) : Bool × DB :=
  match item.extracted with
  | none => (false, db)
  | some data =>
    let r := store_pdf_data_f item.fault item.insFault data db
    (r.1.success, r.2)

/-- `process_folder`: process every file in order, accumulating
totals and per-file details. -/
def process_folder_f : List FileItem → DB → FolderResults × DB
  | [], db => (⟨0, 0, 0, []⟩, db)
  | it :: its, db =>
    let r := processItem it db
    let rest := process_folder_f its r.2
    (⟨rest.1.total + 1,
      rest.1.successful + (if r.1 then 1 else 0),
      rest.1.failed + (if r.1 then 0 else 1),
      ⟨it.name, r.1⟩ :: rest.1.details⟩, rest.2)

/-! ## Persistence lemmas -/

/-- After the step-3 upsert the offering lookup always succeeds (the
`fetchone()[0]` of line 912 cannot fail). -/
theorem lookupOfferingId_insOffering (data : Record)
    (t : List UnitOfferingRow) :
    ∃ oid, lookupOfferingId data (insOffering data t) = some oid := by
  unfold insOffering lookupOfferingId
  split
  · rename_i h
    have hs : (t.find? (offeringMatches data)).isSome := by
      rw [List.find?_isSome]
      obtain ⟨r, hr, hm⟩ := List.any_eq_true.mp h
      exact ⟨r, hr, hm⟩
    obtain ⟨v, hv⟩ := Option.isSome_iff_exists.mp hs
    exact ⟨v.unit_offering_id, by rw [hv]; rfl⟩
  · rename_i h
    have hnone : t.find? (offeringMatches data) = none := by
      rw [List.find?_eq_none]
      intro x hx hp
      exact h (List.any_eq_true.mpr ⟨x, hx, hp⟩)
    exact ⟨t.length + 1, by
      rw [List.find?_append, hnone]
      simp [offeringMatches]⟩

/-- Full unfolding of a fault-free `store_pdf_data` run: the store always
succeeds, each table is transformed by its step, and `question` is
untouched. -/
theorem store_pdf_data_eq (data : Record) (db : DB) :
    ∃ oid,
      lookupOfferingId data (insOffering data db.unit_offering) = some oid ∧
      store_pdf_data data db =
        (⟨true, "", data.unit_code, data.semester, data.year,
          (benchLoop (getOrCreateEvent data db.survey_event).1 db.question
            data.benchmarks db.benchmark 0).1,
          (detLoop noFault (getOrCreateSurvey data oid
              (getOrCreateEvent data db.survey_event).1 db.unit_survey).1
            db.question data.detailed_results 0 db.unit_survey_result 0).1,
          (comLoop (getOrCreateSurvey data oid
              (getOrCreateEvent data db.survey_event).1 db.unit_survey).1
            data.comments db.comment 0).1⟩,
         ⟨insDiscipline data db.discipline,
          insUnit data db.unit,
          insOffering data db.unit_offering,
          (getOrCreateEvent data db.survey_event).2,
          db.question,
          (getOrCreateSurvey data oid
            (getOrCreateEvent data db.survey_event).1 db.unit_survey).2,
          (detLoop noFault (getOrCreateSurvey data oid
              (getOrCreateEvent data db.survey_event).1 db.unit_survey).1
            db.question data.detailed_results 0 db.unit_survey_result 0).2,
          (benchLoop (getOrCreateEvent data db.survey_event).1 db.question
            data.benchmarks db.benchmark 0).2,
          (comLoop (getOrCreateSurvey data oid
              (getOrCreateEvent data db.survey_event).1 db.unit_survey).1
            data.comments db.comment 0).2⟩) := by
  obtain ⟨oid, hoid⟩ := lookupOfferingId_insOffering data db.unit_offering
  refine ⟨oid, hoid, ?_⟩
  unfold store_pdf_data store_pdf_data_f
  dsimp only
  rw [hoid]
  rfl

/-- Claim C8: persistence maps semester 1 to survey-event month 5 and
semester 2 to month 10, and gets-or-creates the `survey_event` row keyed
by `(year, month)`: starting from a database without an event for that
key, two imports with the same semester and year (regardless of unit)
leave exactly one `survey_event` row for that `(year, month)`. -/
theorem c8_semester_month_one_event (r1 r2 : Record) (db : DB)
    (hsem : r1.semester = r2.semester) (hyr : r1.year = r2.year)
    (h0 : (db.survey_event.filter (fun e =>
        e.year == r1.year &&
          e.month == monthForSemester r1.semester)).length = 0) :
    monthForSemester 1 = 5 ∧ monthForSemester 2 = 10 ∧
      ((store_pdf_data r2 (store_pdf_data r1 db).2).2.survey_event.filter
        (fun e => e.year == r1.year &&
          e.month == monthForSemester r1.semester)).length = 1 := by
  refine ⟨rfl, rfl, ?_⟩
  have hfilnil : db.survey_event.filter (fun e =>
      e.year == r1.year && e.month == monthForSemester r1.semester) = [] :=
    List.length_eq_zero.mp h0
  have hnone : db.survey_event.find? (fun e =>
      e.year == r1.year && e.month == monthForSemester r1.semester) = none := by
    rw [List.find?_eq_none]
    intro x hx hp
    have : x ∈ db.survey_event.filter (fun e =>
        e.year == r1.year && e.month == monthForSemester r1.semester) :=
      List.mem_filter.mpr ⟨hx, hp⟩
    rw [hfilnil] at this
    exact absurd this (List.not_mem_nil x)
  obtain ⟨oid1, _, heq1⟩ := store_pdf_data_eq r1 db
  have hev1 : (store_pdf_data r1 db).2.survey_event =
      db.survey_event ++ [⟨db.survey_event.length + 1,
        monthForSemester r1.semester, r1.year, eventDescription r1⟩] := by
    rw [heq1]
    show (getOrCreateEvent r1 db.survey_event).2 = _
    unfold getOrCreateEvent
    dsimp only
    rw [hnone]
  obtain ⟨oid2, _, heq2⟩ := store_pdf_data_eq r2 (store_pdf_data r1 db).2
  have hrow : (fun (e : SurveyEventRow) => e.year == r1.year &&
      e.month == monthForSemester r1.semester)
      (⟨db.survey_event.length + 1, monthForSemester r1.semester, r1.year,
        eventDescription r1⟩ : SurveyEventRow) = true := by
    simp
  have hfind2 : (store_pdf_data r1 db).2.survey_event.find? (fun e =>
      e.year == r2.year && e.month == monthForSemester r2.semester) =
      some ⟨db.survey_event.length + 1, monthForSemester r1.semester,
        r1.year, eventDescription r1⟩ := by
    rw [hev1, ← hsem, ← hyr, List.find?_append, hnone]
    simp
  have hev2 : (store_pdf_data r2 (store_pdf_data r1 db).2).2.survey_event =
      (store_pdf_data r1 db).2.survey_event := by
    rw [heq2]
    show (getOrCreateEvent r2 (store_pdf_data r1 db).2.survey_event).2 = _
    unfold getOrCreateEvent
    dsimp only
    rw [hfind2]
  rw [hev2, hev1, List.filter_append, hfilnil]
  simp

/-- Concrete record used by several witnesses: semester 1, year 2024,
no child rows. -/
def recA : Record :=
  ⟨"ISYS2001", "Introduction to Business Programming", 1, 2024,
   "Bentley Perth", "Internal", "ISYS", "Information Systems",
   0, 0, fl0, fl0, [], [], []⟩

/-- The empty database. -/
def dbEmpty : DB := ⟨[], [], [], [], [], [], [], [], []⟩

/-- The six canonical questions seeded by
`Database._populate_standard_questions` (database.py 129-150). -/
def initialQuestions : List QuestionRow :=
  [⟨1, "I was engaged by the learning activities."⟩,
   ⟨2, "The resources provided helped me to learn."⟩,
   ⟨3, "My learning was supported."⟩,
   ⟨4, "Assessments helped me to demonstrate my learning."⟩,
   ⟨5, "I knew what was expected of me."⟩,
   ⟨6, "Overall, this unit was a worthwhile experience."⟩]

/-- A fresh database as created by `Database.create_schema`: empty
tables except the seeded question catalog. -/
def dbSeeded : DB := ⟨[], [], [], [], initialQuestions, [], [], [], []⟩

/-- Concrete record with one benchmark, one detailed row and one
comment, used by witnesses that exercise the child-row loops. -/
def recB : Record :=
  ⟨"ISYS2001", "Introduction to Business Programming", 1, 2024,
   "Bentley Perth", "Internal", "ISYS", "Information Systems",
   120, 35, ⟨"29.2"⟩, ⟨"85.3"⟩,
   [⟨"Overall", "Overall", "Engaged", ⟨"85.3"⟩, 120⟩],
   [⟨"Really a fine unit with no sentiment keywords", 0⟩],
   [⟨"I was engaged by the learning activities", 10, 1, 2, 3, 4, 0,
     ⟨"85.3"⟩⟩]⟩

/-- Witness for C8: two imports of the same record into an empty
database leave exactly one survey event for (2024, 5). -/
theorem c8_semester_month_one_event_witness :
    ((store_pdf_data recA (store_pdf_data recA dbEmpty).2).2.survey_event.filter
      (fun e => e.year == recA.year &&
        e.month == monthForSemester recA.semester)).length = 1 :=
  (c8_semester_month_one_event recA recA dbEmpty rfl rfl (by decide)).2.2

/-- Claim C9: if a `unit_survey` row already exists for
`(unit_offering_id, event_id)`, a later import reuses its `survey_id`
and leaves the whole `unit_survey` table — hence its `enrolments`,
`responses`, `response_rate` and `overall_experience` — unchanged; a new
row is inserted only when none exists for that pair. -/
theorem c9_unit_survey_first_import_wins (data : Record) (db : DB)
    (oid : Nat)
    (hoid : lookupOfferingId data (insOffering data db.unit_offering) =
      some oid) :
    (∀ s0, db.unit_survey.find? (fun s =>
        s.unit_offering_id == oid &&
          s.event_id == (getOrCreateEvent data db.survey_event).1) =
          some s0 →
      (store_pdf_data data db).2.unit_survey = db.unit_survey ∧
      (getOrCreateSurvey data oid (getOrCreateEvent data db.survey_event).1
        db.unit_survey).1 = s0.survey_id) ∧
    (db.unit_survey.find? (fun s =>
        s.unit_offering_id == oid &&
          s.event_id == (getOrCreateEvent data db.survey_event).1) = none →
      (store_pdf_data data db).2.unit_survey =
        db.unit_survey ++ [⟨db.unit_survey.length + 1, oid,
          (getOrCreateEvent data db.survey_event).1, data.enrollments,
          data.responses, data.response_rate, data.overall_experience⟩]) := by
  obtain ⟨oid', hoid', heq⟩ := store_pdf_data_eq data db
  have hoids : oid' = oid := by
    rw [hoid] at hoid'
    exact (Option.some.injEq _ _).mp hoid'.symm
  subst hoids
  constructor
  · intro s0 hfind
    constructor
    · rw [heq]
      show (getOrCreateSurvey data oid'
        (getOrCreateEvent data db.survey_event).1 db.unit_survey).2 = _
      unfold getOrCreateSurvey
      rw [hfind]
    · unfold getOrCreateSurvey
      rw [hfind]
  · intro hfind
    rw [heq]
    show (getOrCreateSurvey data oid'
      (getOrCreateEvent data db.survey_event).1 db.unit_survey).2 = _
    unfold getOrCreateSurvey
    rw [hfind]

/-- Witness for C9: importing into the empty database inserts exactly
the one new `unit_survey` row. -/
theorem c9_unit_survey_first_import_wins_witness :
    (store_pdf_data recA dbEmpty).2.unit_survey =
      dbEmpty.unit_survey ++ [⟨dbEmpty.unit_survey.length + 1, 1,
        (getOrCreateEvent recA dbEmpty.survey_event).1, recA.enrollments,
        recA.responses, recA.response_rate, recA.overall_experience⟩] :=
  (c9_unit_survey_first_import_wins recA dbEmpty 1 (by decide)).2 (by decide)

/-! ## Rollback and batch lemmas -/

/-- Any failing store run leaves the database exactly as it was
(the outer `except` handler rolls the transaction back). -/
theorem store_fault_rollback (fault insFault : Nat → Bool) (data : Record)
    (db : DB)
    (h : (store_pdf_data_f fault insFault data db).1.success = false) :
    (store_pdf_data_f fault insFault data db).2 = db := by
  revert h
  unfold store_pdf_data_f
  dsimp only
  repeat' split
  all_goals intro h
  all_goals first | rfl | (exact absurd h (by simp))

/-- With no outer exception the store always succeeds, whatever the
inner insert oracle does: a swallowed `unit_survey_result` INSERT
exception never surfaces, and the benchmark and comment tables commit
exactly as in the exception-free run. -/
theorem store_insFault_success (insFault : Nat → Bool) (data : Record)
    (db : DB) :
    (store_pdf_data_f noFault insFault data db).1.success = true ∧
    (store_pdf_data_f noFault insFault data db).2.benchmark =
      (store_pdf_data data db).2.benchmark ∧
    (store_pdf_data_f noFault insFault data db).2.comment =
      (store_pdf_data data db).2.comment := by
  obtain ⟨oid, hoid⟩ := lookupOfferingId_insOffering data db.unit_offering
  refine ⟨?_, ?_, ?_⟩
  · unfold store_pdf_data_f
    dsimp only
    rw [hoid]
    rfl
  · unfold store_pdf_data store_pdf_data_f
    dsimp only
    rw [hoid]
    rfl
  · unfold store_pdf_data store_pdf_data_f
    dsimp only
    rw [hoid]
    rfl

/-- A failing `process_pdf` does not touch the database. -/
theorem processItem_fail_db (it : FileItem) (db : DB)
    (h : (processItem it db).1 = false) : (processItem it db).2 = db := by
  obtain ⟨nm, ext, fl, ifl⟩ := it
  cases ext with
  | none => rfl
  | some data => exact store_fault_rollback fl ifl data db h

/-- `process_folder` over a concatenation threads the database. -/
theorem process_folder_db_append (xs ys : List FileItem) (db : DB) :
    (process_folder_f (xs ++ ys) db).2 =
      (process_folder_f ys (process_folder_f xs db).2).2 := by
  induction xs generalizing db with
  | nil => simp [process_folder_f]
  | cons it xs ih => simp [process_folder_f, ih]

/-- Claim C4 (amended): an exception at any statement under the outer
`try` rolls the whole per-document transaction back (the database is
exactly as before the import) and yields a failure result — but an
exception inside the inner-guarded `unit_survey_result` INSERT (lines
1111-1134) is swallowed: the import still succeeds and everything else
commits; a batch processes every file even when one fails, and a
failing file contributes nothing while earlier imports' rows flow
through untouched. -/
theorem c4_rollback_isolation_batch :
    (∀ (fault insFault : Nat → Bool) (data : Record) (db : DB),
        (store_pdf_data_f fault insFault data db).1.success = false →
          (store_pdf_data_f fault insFault data db).2 = db) ∧
    (∀ (fault insFault : Nat → Bool) (data : Record) (db : DB),
        fault 1 = true →
          (store_pdf_data_f fault insFault data db).1.success = false) ∧
    (∀ (insFault : Nat → Bool) (data : Record) (db : DB),
        (store_pdf_data_f noFault insFault data db).1.success = true ∧
        (store_pdf_data_f noFault insFault data db).2.benchmark =
          (store_pdf_data data db).2.benchmark ∧
        (store_pdf_data_f noFault insFault data db).2.comment =
          (store_pdf_data data db).2.comment) ∧
    (∀ (items : List FileItem) (db : DB),
        (process_folder_f items db).1.total = items.length ∧
        (process_folder_f items db).1.successful +
            (process_folder_f items db).1.failed = items.length ∧
        (process_folder_f items db).1.details.length = items.length) ∧
    (∀ (pre post : List FileItem) (it : FileItem) (db : DB),
        (processItem it (process_folder_f pre db).2).1 = false →
        (process_folder_f (pre ++ it :: post) db).2 =
          (process_folder_f post (process_folder_f pre db).2).2) := by
  refine ⟨store_fault_rollback, ?_, store_insFault_success, ?_, ?_⟩
  · intro fault insFault data db h
    unfold store_pdf_data_f
    rw [h]
    rfl
  · intro items db
    induction items generalizing db with
    | nil => simp [process_folder_f]
    | cons it its ih =>
      obtain ⟨h1, h2, h3⟩ := ih (processItem it db).2
      simp only [process_folder_f, List.length_cons]
      refine ⟨by simp [h1], ?_, by simp [h3]⟩
      by_cases hr : (processItem it db).1 <;> simp [hr] <;> omega
  · intro pre post it db h
    rw [process_folder_db_append pre (it :: post) db]
    show (process_folder_f post (processItem it
      (process_folder_f pre db).2).2).2 = _
    rw [processItem_fail_db _ _ h]

/-- Witness for C4: a fault at step 1 on the empty database fails and
rolls back; a fault confined to the first detailed-row INSERT still
succeeds; a one-file batch counts its one (failing) file. -/
theorem c4_rollback_isolation_batch_witness :
    (store_pdf_data_f (fun k => decide (k = 1)) noFault recA
        dbEmpty).1.success = false ∧
      (store_pdf_data_f (fun k => decide (k = 1)) noFault recA
        dbEmpty).2 = dbEmpty ∧
      (store_pdf_data_f noFault (fun i => decide (i = 0)) recA
        dbEmpty).1.success = true ∧
      (process_folder_f
        [⟨"a.pdf", some recA, (fun k => decide (k = 1)), noFault⟩]
        dbEmpty).1.total = 1 := by
  have hfail := c4_rollback_isolation_batch.2.1 (fun k => decide (k = 1))
    noFault recA dbEmpty (by decide)
  exact ⟨hfail,
    c4_rollback_isolation_batch.1 (fun k => decide (k = 1)) noFault recA
      dbEmpty hfail,
    (c4_rollback_isolation_batch.2.2.1 (fun i => decide (i = 0)) recA
      dbEmpty).1,
    (c4_rollback_isolation_batch.2.2.2.1
      [⟨"a.pdf", some recA, (fun k => decide (k = 1)), noFault⟩]
      dbEmpty).1⟩

/-- Counterexample to the written claim: an exception raised in the
step-8 `unit_survey_result` INSERT (here: on the first detailed row) is
*not* rolled back and does *not* fail the import — the run returns
success, the faulted row alone is neither inserted nor counted, and the
same record's benchmark commits, so the database differs from its
pre-import state; the exception-free run on the same inputs counts the
detailed row. -/
theorem c4_swallowed_insert_commits :
    (store_pdf_data_f noFault (fun i => decide (i = 0)) recB
        dbSeeded).1.success = true ∧
    (store_pdf_data_f noFault (fun i => decide (i = 0)) recB
        dbSeeded).1.detailed_results_added = 0 ∧
    (store_pdf_data_f noFault (fun i => decide (i = 0)) recB
        dbSeeded).2.unit_survey_result = dbSeeded.unit_survey_result ∧
    (store_pdf_data_f noFault (fun i => decide (i = 0)) recB
        dbSeeded).2.benchmark.length = dbSeeded.benchmark.length + 1 ∧
    (store_pdf_data_f noFault (fun i => decide (i = 0)) recB
        dbSeeded).2 ≠ dbSeeded ∧
    (store_pdf_data recB dbSeeded).1.detailed_results_added = 1 := by
  refine ⟨rfl, rfl, rfl, rfl, ?_, rfl⟩
  intro he
  have h4 : (store_pdf_data_f noFault (fun i => decide (i = 0)) recB
      dbSeeded).2.benchmark.length = dbSeeded.benchmark.length + 1 := rfl
  rw [he] at h4
  omega

/-! ## Idempotence of `store_pdf_data` (claim C1) -/

theorem insDiscipline_key (data : Record) (t : List DisciplineRow) :
    (insDiscipline data t).any
      (fun r => r.discipline_code == data.discipline_code) = true := by
  unfold insDiscipline
  split
  · assumption
  · simp

theorem insDiscipline_stable (data : Record) (t : List DisciplineRow)
    (h : t.any (fun r => r.discipline_code == data.discipline_code) = true) :
    insDiscipline data t = t := by
  unfold insDiscipline
  rw [if_pos h]

theorem insDiscipline_idem (data : Record) (t : List DisciplineRow) :
    insDiscipline data (insDiscipline data t) = insDiscipline data t :=
  insDiscipline_stable data _ (insDiscipline_key data t)

theorem insUnit_key (data : Record) (t : List UnitRow) :
    (insUnit data t).any (fun r => r.unit_code == data.unit_code) = true := by
  unfold insUnit
  split
  · assumption
  · simp

theorem insUnit_stable (data : Record) (t : List UnitRow)
    (h : t.any (fun r => r.unit_code == data.unit_code) = true) :
    insUnit data t = t := by
  unfold insUnit
  rw [if_pos h]

theorem insUnit_idem (data : Record) (t : List UnitRow) :
    insUnit data (insUnit data t) = insUnit data t :=
  insUnit_stable data _ (insUnit_key data t)

theorem insOffering_key (data : Record) (t : List UnitOfferingRow) :
    (insOffering data t).any (offeringMatches data) = true := by
  unfold insOffering
  split
  · assumption
  · simp [offeringMatches]

theorem insOffering_stable (data : Record) (t : List UnitOfferingRow)
    (h : t.any (offeringMatches data) = true) :
    insOffering data t = t := by
  unfold insOffering
  rw [if_pos h]

theorem insOffering_idem (data : Record) (t : List UnitOfferingRow) :
    insOffering data (insOffering data t) = insOffering data t :=
  insOffering_stable data _ (insOffering_key data t)

theorem getOrCreateEvent_idem (data : Record) (t : List SurveyEventRow) :
    getOrCreateEvent data (getOrCreateEvent data t).2 =
      getOrCreateEvent data t := by
  unfold getOrCreateEvent
  dsimp only
  cases hfind : t.find? (fun e =>
      e.year == data.year && e.month == monthForSemester data.semester) with
  | some e => simp [hfind]
  | none => simp [hfind, List.find?_append]

theorem getOrCreateSurvey_idem (data : Record) (oid eid : Nat)
    (t : List UnitSurveyRow) :
    getOrCreateSurvey data oid eid (getOrCreateSurvey data oid eid t).2 =
      getOrCreateSurvey data oid eid t := by
  unfold getOrCreateSurvey
  dsimp only
  cases hfind : t.find? (fun s =>
      s.unit_offering_id == oid && s.event_id == eid) with
  | some e => simp [hfind]
  | none => simp [hfind, List.find?_append]

theorem benchLoop_any_mono (eid : Nat) (qs : List QuestionRow)
    (bs : List BenchmarkEntry) (t : List BenchmarkRow) (acc : Nat)
    (p : BenchmarkRow → Bool) (h : t.any p = true) :
    ((benchLoop eid qs bs t acc).2).any p = true := by
  induction bs generalizing t acc with
  | nil => simpa [benchLoop] using h
  | cons b bs ih =>
    unfold benchLoop
    cases hr : resolveBenchQid qs b.question_label with
    | none => exact ih t acc h
    | some qid =>
      dsimp only
      split
      · exact ih t acc h
      · refine ih _ (acc + 1) ?_
        rw [List.any_append]
        simp [h]

theorem benchLoop_post (eid : Nat) (qs : List QuestionRow)
    (bs : List BenchmarkEntry) (t : List BenchmarkRow) (acc : Nat) :
    ∀ b ∈ bs, ∀ qid, resolveBenchQid qs b.question_label = some qid →
      ((benchLoop eid qs bs t acc).2).any (benchKey eid qid b.group_type) =
        true := by
  induction bs generalizing t acc with
  | nil => intro b hb; exact absurd hb (List.not_mem_nil b)
  | cons b0 bs ih =>
    intro b hb qid hres
    unfold benchLoop
    cases hr0 : resolveBenchQid qs b0.question_label with
    | none =>
      rcases List.mem_cons.mp hb with rfl | htail
      · rw [hres] at hr0; cases hr0
      · exact ih t acc b htail qid hres
    | some qid0 =>
      dsimp only
      split
      · rename_i hany
        rcases List.mem_cons.mp hb with rfl | htail
        · rw [hres] at hr0
          injection hr0 with h'
          subst h'
          exact benchLoop_any_mono eid qs bs t acc _ hany
        · exact ih t acc b htail qid hres
      · rcases List.mem_cons.mp hb with rfl | htail
        · rw [hres] at hr0
          injection hr0 with h'
          subst h'
          refine benchLoop_any_mono eid qs bs _ (acc + 1) _ ?_
          rw [List.any_append]
          simp [benchKey]
        · exact ih _ (acc + 1) b htail qid hres

theorem benchLoop_stable (eid : Nat) (qs : List QuestionRow)
    (bs : List BenchmarkEntry) (t : List BenchmarkRow) (acc : Nat)
    (h : ∀ b ∈ bs, ∀ qid, resolveBenchQid qs b.question_label = some qid →
        t.any (benchKey eid qid b.group_type) = true) :
    benchLoop eid qs bs t acc = (acc, t) := by
  induction bs generalizing acc with
  | nil => rfl
  | cons b0 bs ih =>
    unfold benchLoop
    cases hr0 : resolveBenchQid qs b0.question_label with
    | none =>
      exact ih acc (fun b hb => h b (List.mem_cons_of_mem b0 hb))
    | some qid0 =>
      dsimp only
      rw [if_pos (h b0 (List.mem_cons_self b0 bs) qid0 hr0)]
      exact ih acc (fun b hb => h b (List.mem_cons_of_mem b0 hb))

theorem benchLoop_idem (eid : Nat) (qs : List QuestionRow)
    (bs : List BenchmarkEntry) (t : List BenchmarkRow) :
    benchLoop eid qs bs (benchLoop eid qs bs t 0).2 0 =
      (0, (benchLoop eid qs bs t 0).2) :=
  benchLoop_stable eid qs bs _ 0
    (fun b hb qid hres => benchLoop_post eid qs bs t 0 b hb qid hres)

theorem detLoop_any_mono (insFault : Nat → Bool) (sid : Nat)
    (qs : List QuestionRow) (rs : List DetailedEntry) (i : Nat)
    (t : List UnitSurveyResultRow) (acc : Nat)
    (p : UnitSurveyResultRow → Bool) (h : t.any p = true) :
    ((detLoop insFault sid qs rs i t acc).2).any p = true := by
  induction rs generalizing i t acc with
  | nil => simpa [detLoop] using h
  | cons r rs ih =>
    unfold detLoop
    cases hr : resolveDetailedQid qs r.question_text with
    | none => exact ih (i + 1) t acc h
    | some qid =>
      dsimp only
      split
      · exact ih (i + 1) t acc h
      · split
        · exact ih (i + 1) t acc h
        · refine ih (i + 1) _ (acc + 1) ?_
          rw [List.any_append]
          simp [h]

theorem detLoop_post (sid : Nat) (qs : List QuestionRow)
    (rs : List DetailedEntry) (i : Nat) (t : List UnitSurveyResultRow)
    (acc : Nat) :
    ∀ r ∈ rs, ∀ qid, resolveDetailedQid qs r.question_text = some qid →
      ((detLoop noFault sid qs rs i t acc).2).any (detKey sid qid) =
        true := by
  induction rs generalizing i t acc with
  | nil => intro r hr; exact absurd hr (List.not_mem_nil r)
  | cons r0 rs ih =>
    intro r hr qid hres
    unfold detLoop
    cases hr0 : resolveDetailedQid qs r0.question_text with
    | none =>
      rcases List.mem_cons.mp hr with rfl | htail
      · rw [hres] at hr0; cases hr0
      · exact ih (i + 1) t acc r htail qid hres
    | some qid0 =>
      dsimp only
      split
      · rename_i hany
        rcases List.mem_cons.mp hr with rfl | htail
        · rw [hres] at hr0
          injection hr0 with h'
          subst h'
          exact detLoop_any_mono noFault sid qs rs (i + 1) t acc _ hany
        · exact ih (i + 1) t acc r htail qid hres
      · rw [if_neg (by simp [noFault])]
        rcases List.mem_cons.mp hr with rfl | htail
        · rw [hres] at hr0
          injection hr0 with h'
          subst h'
          refine detLoop_any_mono noFault sid qs rs (i + 1) _ (acc + 1) _ ?_
          rw [List.any_append]
          simp [detKey]
        · exact ih (i + 1) _ (acc + 1) r htail qid hres

theorem detLoop_stable (sid : Nat) (qs : List QuestionRow)
    (rs : List DetailedEntry) (i : Nat) (t : List UnitSurveyResultRow)
    (acc : Nat)
    (h : ∀ r ∈ rs, ∀ qid, resolveDetailedQid qs r.question_text = some qid →
        t.any (detKey sid qid) = true) :
    detLoop noFault sid qs rs i t acc = (acc, t) := by
  induction rs generalizing i acc with
  | nil => rfl
  | cons r0 rs ih =>
    unfold detLoop
    cases hr0 : resolveDetailedQid qs r0.question_text with
    | none =>
      exact ih (i + 1) acc (fun r hr => h r (List.mem_cons_of_mem r0 hr))
    | some qid0 =>
      dsimp only
      rw [if_pos (h r0 (List.mem_cons_self r0 rs) qid0 hr0)]
      exact ih (i + 1) acc (fun r hr => h r (List.mem_cons_of_mem r0 hr))

theorem detLoop_idem (sid : Nat) (qs : List QuestionRow)
    (rs : List DetailedEntry) (t : List UnitSurveyResultRow) :
    detLoop noFault sid qs rs 0 (detLoop noFault sid qs rs 0 t 0).2 0 =
      (0, (detLoop noFault sid qs rs 0 t 0).2) :=
  detLoop_stable sid qs rs 0 _ 0
    (fun r hr qid hres => detLoop_post sid qs rs 0 t 0 r hr qid hres)

theorem comLoop_any_mono (sid : Nat) (cs : List CommentEntry)
    (t : List CommentRow) (acc : Nat) (p : CommentRow → Bool)
    (h : t.any p = true) : ((comLoop sid cs t acc).2).any p = true := by
  induction cs generalizing t acc with
  | nil => simpa [comLoop] using h
  | cons c cs ih =>
    unfold comLoop
    split
    · exact ih t acc h
    · refine ih _ (acc + 1) ?_
      rw [List.any_append]
      simp [h]

theorem comLoop_post (sid : Nat) (cs : List CommentEntry)
    (t : List CommentRow) (acc : Nat) :
    ∀ c ∈ cs, ((comLoop sid cs t acc).2).any (comKey sid c) = true := by
  induction cs generalizing t acc with
  | nil => intro c hc; exact absurd hc (List.not_mem_nil c)
  | cons c0 cs ih =>
    intro c hc
    unfold comLoop
    split
    · rename_i hany
      rcases List.mem_cons.mp hc with rfl | htail
      · exact comLoop_any_mono sid cs t acc _ hany
      · exact ih t acc c htail
    · rcases List.mem_cons.mp hc with rfl | htail
      · refine comLoop_any_mono sid cs _ (acc + 1) _ ?_
        rw [List.any_append]
        have hself : likeMatch (commentPattern c)
            c.comment_text.data = true := by
          unfold commentPattern
          exact likeMatch_self_fifty c.comment_text.data
        simp [comKey, hself]
      · exact ih _ (acc + 1) c htail

theorem comLoop_stable (sid : Nat) (cs : List CommentEntry)
    (t : List CommentRow) (acc : Nat)
    (h : ∀ c ∈ cs, t.any (comKey sid c) = true) :
    comLoop sid cs t acc = (acc, t) := by
  induction cs generalizing acc with
  | nil => rfl
  | cons c0 cs ih =>
    unfold comLoop
    rw [if_pos (h c0 (List.mem_cons_self c0 cs))]
    exact ih acc (fun c hc => h c (List.mem_cons_of_mem c0 hc))

theorem comLoop_idem (sid : Nat) (cs : List CommentEntry)
    (t : List CommentRow) :
    comLoop sid cs (comLoop sid cs t 0).2 0 = (0, (comLoop sid cs t 0).2) :=
  comLoop_stable sid cs _ 0 (fun c hc => comLoop_post sid cs t 0 c hc)

/-- A second run of `store_pdf_data` on the same record leaves the
database exactly as the first run left it. -/
theorem store_pdf_data_second_run (data : Record) (db : DB) :
    (store_pdf_data data (store_pdf_data data db).2).2 =
      (store_pdf_data data db).2 := by
  obtain ⟨oid1, hoid1, heq1⟩ := store_pdf_data_eq data db
  obtain ⟨oid2, hoid2, heq2⟩ :=
    store_pdf_data_eq data (store_pdf_data data db).2
  have hoff1 : (store_pdf_data data db).2.unit_offering =
      insOffering data db.unit_offering := by rw [heq1]
  have hoids : oid2 = oid1 := by
    rw [hoff1, insOffering_idem, hoid1] at hoid2
    exact ((Option.some.injEq _ _).mp hoid2).symm
  subst hoids
  rw [heq2, heq1]
  dsimp only
  rw [insDiscipline_idem, insUnit_idem, insOffering_idem,
    getOrCreateEvent_idem, getOrCreateSurvey_idem, benchLoop_idem,
    detLoop_idem, comLoop_idem]

/-- Claim C1: importing the same record twice yields identical row
counts after the second import as after the first, across every table:
after a first successful import, a second `store_pdf_data` call inserts
no new rows into `discipline`, `unit`, `unit_offering`, `survey_event`,
`unit_survey`, `benchmark`, `unit_survey_result` or `comment`. -/
theorem c1_store_pdf_data_idempotent (data : Record) (db : DB)
    (_h : (store_pdf_data data db).1.success = true) :
    (store_pdf_data data (store_pdf_data data db).2).2.discipline.length =
        (store_pdf_data data db).2.discipline.length ∧
    (store_pdf_data data (store_pdf_data data db).2).2.unit.length =
        (store_pdf_data data db).2.unit.length ∧
    (store_pdf_data data (store_pdf_data data db).2).2.unit_offering.length =
        (store_pdf_data data db).2.unit_offering.length ∧
    (store_pdf_data data (store_pdf_data data db).2).2.survey_event.length =
        (store_pdf_data data db).2.survey_event.length ∧
    (store_pdf_data data (store_pdf_data data db).2).2.unit_survey.length =
        (store_pdf_data data db).2.unit_survey.length ∧
    (store_pdf_data data (store_pdf_data data db).2).2.benchmark.length =
        (store_pdf_data data db).2.benchmark.length ∧
    (store_pdf_data data
        (store_pdf_data data db).2).2.unit_survey_result.length =
        (store_pdf_data data db).2.unit_survey_result.length ∧
    (store_pdf_data data (store_pdf_data data db).2).2.comment.length =
        (store_pdf_data data db).2.comment.length := by
  rw [store_pdf_data_second_run data db]
  exact ⟨rfl, rfl, rfl, rfl, rfl, rfl, rfl, rfl⟩

/-- Witness for C1: re-importing a concrete record with a benchmark, a
detailed row and a comment, against the seeded question catalog, adds
nothing to the `benchmark` and `comment` tables. -/
theorem c1_store_pdf_data_idempotent_witness :
    (store_pdf_data recB (store_pdf_data recB dbSeeded).2).2.benchmark.length =
        (store_pdf_data recB dbSeeded).2.benchmark.length ∧
      (store_pdf_data recB (store_pdf_data recB dbSeeded).2).2.comment.length =
        (store_pdf_data recB dbSeeded).2.comment.length :=
  ⟨(c1_store_pdf_data_idempotent recB dbSeeded (by decide)).2.2.2.2.2.1,
   (c1_store_pdf_data_idempotent recB dbSeeded (by decide)).2.2.2.2.2.2.2⟩

/-! ## Schema-checked execution (claim C5)

`Database.create_schema` creates a `benchmark` table with columns
`(benchmark_id, survey_id, question_id, group_type, percent_agree,
total_n)` — no `event_id` and no `group_name` — while the step-7
statements of `store_pdf_data` reference `event_id` (and the INSERT also
`group_name`).  SQLite raises `OperationalError: no such column` on the
first statement referencing a missing column.  The checked runner below
executes the same steps as `store_pdf_data` but verifies each
statement's referenced columns against a schema first. -/

/-- The table schemas created by `Database.create_schema`
(database.py 30-122). -/
def createSchemaCols : List (String × List String) :=
  [("discipline", ["discipline_code", "discipline_name"]),
   ("unit", ["unit_code", "unit_name", "discipline_code"]),
   ("unit_offering",
    ["unit_offering_id", "unit_code", "semester", "year", "location",
     "availability"]),
   ("survey_event", ["event_id", "month", "year", "description"]),
   ("question", ["question_id", "question_text"]),
   ("unit_survey",
    ["survey_id", "unit_offering_id", "event_id", "enrolments", "responses",
     "response_rate", "overall_experience"]),
   ("unit_survey_result",
    ["result_id", "survey_id", "question_id", "strongly_disagree",
     "disagree", "neutral", "agree", "strongly_agree", "unable_to_judge",
     "percent_agree"]),
   ("benchmark",
    ["benchmark_id", "survey_id", "question_id", "group_type",
     "percent_agree", "total_n"]),
   ("comment", ["comment_id", "survey_id", "comment_text",
     "sentiment_score"])]

/-- `no such column` error: the failing statement and the missing
column. -/
structure SqlError where
  stmt : String
  column : String
  deriving DecidableEq, Repr

/-- Does a schema's table have a column? -/
def schemaHasCol (schema : List (String × List String))
    (table col : String) : Bool :=
  match schema.find? (fun p => p.1 == table) with
  | some p => p.2.contains col
  | none => false

/-- Execute one statement: raise on the first referenced column missing
from the schema (rolling back to `db0`), else continue with `k`. -/
def chkThen (schema : List (String × List String)) (table stmt : String)
    (cols : List String) (db0 : DB) (k : Except SqlError StoreResult × DB) :
    Except SqlError StoreResult × DB :=
  match cols.find? (fun c => !schemaHasCol schema table c) with
  | some c => (.error ⟨stmt, c⟩, db0)
  | none => k

/-- Step-7 loop with column checking: the existence-check SELECT
(line 973) runs before any INSERT for each resolvable benchmark. -/
def benchLoopChecked (schema : List (String × List String)) (eid : Nat)
    (qs : List QuestionRow) :
    List BenchmarkEntry → List BenchmarkRow → Nat →
      Except SqlError (Nat × List BenchmarkRow)
  | [], t, acc => .ok (acc, t)
  | b :: bs, t, acc =>
    match resolveBenchQid qs b.question_label with
    | none => benchLoopChecked schema eid qs bs t acc
    | some qid =>
      match ["benchmark_id", "event_id", "question_id",
          "group_type"].find? (fun c => !schemaHasCol schema "benchmark" c)
        with
      | some c => .error ⟨"select_benchmark_exists", c⟩
      | none =>
        if t.any (benchKey eid qid b.group_type) then
          benchLoopChecked schema eid qs bs t acc
        else
          match ["event_id", "question_id", "group_type", "group_name",
              "percent_agree", "total_n"].find?
              (fun c => !schemaHasCol schema "benchmark" c) with
          | some c => .error ⟨"insert_benchmark", c⟩
          | none =>
            benchLoopChecked schema eid qs bs
              (t ++ [⟨t.length + 1, eid, qid, b.group_type, b.group_name,
                b.percent_agree, b.total_n⟩]) (acc + 1)

/-- Step-8 loop with column checking.  The SELECTs run under the outer
handler and abort; the `unit_survey_result` INSERT alone sits in the
inner `try/except` of lines 1111-1134, so a missing column there is
swallowed — the row is skipped and the loop continues. -/
def detLoopChecked (schema : List (String × List String)) (sid : Nat)
    (qs : List QuestionRow) :
    List DetailedEntry → List UnitSurveyResultRow → Nat →
      Except SqlError (Nat × List UnitSurveyResultRow)
  | [], t, acc => .ok (acc, t)
  | r :: rs, t, acc =>
    match ["question_id", "question_text"].find?
        (fun c => !schemaHasCol schema "question" c) with
    | some c => .error ⟨"select_question_by_text", c⟩
    | none =>
      match resolveDetailedQid qs r.question_text with
      | none => detLoopChecked schema sid qs rs t acc
      | some qid =>
        match ["result_id", "survey_id", "question_id"].find?
            (fun c => !schemaHasCol schema "unit_survey_result" c) with
        | some c => .error ⟨"select_result_exists", c⟩
        | none =>
          if t.any (detKey sid qid) then
            detLoopChecked schema sid qs rs t acc
          else
            match ["survey_id", "question_id", "strongly_disagree",
                "disagree", "neutral", "agree", "strongly_agree",
                "unable_to_judge", "percent_agree"].find?
                (fun c => !schemaHasCol schema "unit_survey_result" c) with
            | some _ => detLoopChecked schema sid qs rs t acc
            | none =>
              detLoopChecked schema sid qs rs
                (t ++ [⟨t.length + 1, sid, qid, r.strongly_disagree,
                  r.disagree, r.neutral, r.agree, r.strongly_agree,
                  r.unable_to_judge, r.percent_agree⟩]) (acc + 1)

/-- Step-9 loop with column checking. -/
def comLoopChecked (schema : List (String × List String)) (sid : Nat) :
    List CommentEntry → List CommentRow → Nat →
      Except SqlError (Nat × List CommentRow)
  | [], t, acc => .ok (acc, t)
  | c :: cs, t, acc =>
    match ["comment_id", "survey_id", "comment_text"].find?
        (fun col => !schemaHasCol schema "comment" col) with
    | some col => .error ⟨"select_comment_like", col⟩
    | none =>
      if t.any (comKey sid c) then
        comLoopChecked schema sid cs t acc
      else
        match ["survey_id", "comment_text", "sentiment_score"].find?
            (fun col => !schemaHasCol schema "comment" col) with
        | some col => .error ⟨"insert_comment", col⟩
        | none =>
          comLoopChecked schema sid cs
            (t ++ [⟨t.length + 1, sid, c.comment_text, c.sentiment_score⟩])
            (acc + 1)

/-- Step 4 with column checking (the insert only executes when no event
row was found). -/
def getOrCreateEventChecked (schema : List (String × List String))
    (data : Record) (t : List SurveyEventRow) :
    Except SqlError (Nat × List SurveyEventRow) :=
  match ["event_id", "year", "month"].find?
      (fun c => !schemaHasCol schema "survey_event" c) with
  | some c => .error ⟨"select_survey_event", c⟩
  | none =>
    match t.find? (fun e =>
        e.year == data.year && e.month == monthForSemester data.semester) with
    | some e => .ok (e.event_id, t)
    | none =>
      match ["month", "year", "description"].find?
          (fun c => !schemaHasCol schema "survey_event" c) with
      | some c => .error ⟨"insert_survey_event", c⟩
      | none =>
        .ok (t.length + 1, t ++ [⟨t.length + 1,
          monthForSemester data.semester, data.year,
          eventDescription data⟩])

/-- Step 5 with column checking. -/
def getOrCreateSurveyChecked (schema : List (String × List String))
    (data : Record) (oid eid : Nat) (t : List UnitSurveyRow) :
    Except SqlError (Nat × List UnitSurveyRow) :=
  match ["survey_id", "unit_offering_id", "event_id"].find?
      (fun c => !schemaHasCol schema "unit_survey" c) with
  | some c => .error ⟨"select_unit_survey", c⟩
  | none =>
    match t.find? (fun s =>
        s.unit_offering_id == oid && s.event_id == eid) with
    | some s => .ok (s.survey_id, t)
    | none =>
      match ["unit_offering_id", "event_id", "enrolments", "responses",
          "response_rate", "overall_experience"].find?
          (fun c => !schemaHasCol schema "unit_survey" c) with
      | some c => .error ⟨"insert_unit_survey", c⟩
      | none =>
        .ok (t.length + 1, t ++ [⟨t.length + 1, oid, eid, data.enrollments,
          data.responses, data.response_rate, data.overall_experience⟩])

/-- `store_pdf_data` executed against an explicit schema, raising (and
rolling back to the input database) on the first statement that
references a missing column. -/
def run_store_checked (schema : List (String × List String))
    (data : Record) (db : DB) : Except SqlError StoreResult × DB :=
  chkThen schema "discipline" "insert_discipline"
    ["discipline_code", "discipline_name"] db (
  let d1 := insDiscipline data db.discipline
  chkThen schema "unit" "insert_unit"
    ["unit_code", "unit_name", "discipline_code"] db (
  let u1 := insUnit data db.unit
  chkThen schema "unit_offering" "insert_unit_offering"
    ["unit_code", "semester", "year", "location", "availability"] db (
  let o1 := insOffering data db.unit_offering
  chkThen schema "unit_offering" "select_unit_offering_id"
    ["unit_offering_id", "unit_code", "semester", "year", "location",
     "availability"] db (
  match lookupOfferingId data o1 with
  | none => (.error ⟨"fetch_offering", ""⟩, db)
  | some oid =>
    match getOrCreateEventChecked schema data db.survey_event with
    | .error e => (.error e, db)
    | .ok (eid, e1) =>
      match getOrCreateSurveyChecked schema data oid eid db.unit_survey with
      | .error e => (.error e, db)
      | .ok (sid, s1) =>
        chkThen schema "question" "select_questions"
          ["question_id", "question_text"] db (
        match benchLoopChecked schema eid db.question data.benchmarks
            db.benchmark 0 with
        | .error e => (.error e, db)
        | .ok (ba, b1) =>
          match detLoopChecked schema sid db.question data.detailed_results
              db.unit_survey_result 0 with
          | .error e => (.error e, db)
          | .ok (da, r1) =>
            match comLoopChecked schema sid data.comments db.comment 0 with
            | .error e => (.error e, db)
            | .ok (ca, c1) =>
              (.ok ⟨true, "", data.unit_code, data.semester, data.year,
                ba, da, ca⟩,
               ⟨d1, u1, o1, e1, db.question, s1, r1, b1, c1⟩))))))

/-- Against the `create_schema` benchmark table, the step-7 loop raises
at the existence-check SELECT of the first resolvable benchmark. -/
theorem benchLoopChecked_createSchema (eid : Nat) (qs : List QuestionRow)
    (bs : List BenchmarkEntry) (t : List BenchmarkRow) (acc : Nat)
    (h : ∃ b ∈ bs, (resolveBenchQid qs b.question_label).isSome = true) :
    benchLoopChecked createSchemaCols eid qs bs t acc =
      .error ⟨"select_benchmark_exists", "event_id"⟩ := by
  induction bs generalizing t acc with
  | nil =>
    obtain ⟨b, hb, _⟩ := h
    exact absurd hb (List.not_mem_nil b)
  | cons b0 bs ih =>
    unfold benchLoopChecked
    cases hr : resolveBenchQid qs b0.question_label with
    | none =>
      obtain ⟨b, hb, hbs⟩ := h
      rcases List.mem_cons.mp hb with rfl | htail
      · rw [hr] at hbs; simp at hbs
      · exact ih t acc ⟨b, htail, hbs⟩
    | some qid => rfl

/-- Claim C5 (amended form): against a database whose schema was created
by `Database.create_schema`, `store_pdf_data` raises on the *benchmark
existence-check SELECT* (which references the missing column `event_id`)
for every record with at least one benchmark whose label resolves, so
the whole import fails and is rolled back. -/
theorem c5_create_schema_benchmark_error (data : Record) (db : DB)
    (h : ∃ b ∈ data.benchmarks,
      (resolveBenchQid db.question b.question_label).isSome = true) :
    run_store_checked createSchemaCols data db =
      (.error ⟨"select_benchmark_exists", "event_id"⟩, db) := by
  obtain ⟨oid, hoid⟩ := lookupOfferingId_insOffering data db.unit_offering
  unfold run_store_checked chkThen getOrCreateEventChecked
    getOrCreateSurveyChecked
  dsimp only
  simp only [
    show List.find? (fun c => !schemaHasCol createSchemaCols "discipline" c)
      ["discipline_code", "discipline_name"] = none from rfl,
    show List.find? (fun c => !schemaHasCol createSchemaCols "unit" c)
      ["unit_code", "unit_name", "discipline_code"] = none from rfl,
    show List.find? (fun c => !schemaHasCol createSchemaCols
        "unit_offering" c)
      ["unit_code", "semester", "year", "location", "availability"] =
      none from rfl,
    show List.find? (fun c => !schemaHasCol createSchemaCols
        "unit_offering" c)
      ["unit_offering_id", "unit_code", "semester", "year", "location",
       "availability"] = none from rfl,
    show List.find? (fun c => !schemaHasCol createSchemaCols
        "survey_event" c) ["event_id", "year", "month"] = none from rfl,
    show List.find? (fun c => !schemaHasCol createSchemaCols
        "survey_event" c) ["month", "year", "description"] = none from rfl,
    show List.find? (fun c => !schemaHasCol createSchemaCols
        "unit_survey" c) ["survey_id", "unit_offering_id", "event_id"] =
      none from rfl,
    show List.find? (fun c => !schemaHasCol createSchemaCols
        "unit_survey" c)
      ["unit_offering_id", "event_id", "enrolments", "responses",
       "response_rate", "overall_experience"] = none from rfl,
    show List.find? (fun c => !schemaHasCol createSchemaCols "question" c)
      ["question_id", "question_text"] = none from rfl]
  rw [hoid]
  dsimp only
  cases hev : db.survey_event.find? (fun e =>
      e.year == data.year && e.month == monthForSemester data.semester) with
  | some e =>
    dsimp only
    cases hsv : db.unit_survey.find? (fun s =>
        s.unit_offering_id == oid && s.event_id == e.event_id) with
    | some s =>
      dsimp only
      rw [benchLoopChecked_createSchema _ _ _ _ _ h]
    | none =>
      dsimp only
      rw [benchLoopChecked_createSchema _ _ _ _ _ h]
  | none =>
    dsimp only
    cases hsv : db.unit_survey.find? (fun s =>
        s.unit_offering_id == oid &&
          s.event_id == db.survey_event.length + 1) with
    | some s =>
      dsimp only
      rw [benchLoopChecked_createSchema _ _ _ _ _ h]
    | none =>
      dsimp only
      rw [benchLoopChecked_createSchema _ _ _ _ _ h]

/-- Counterexample for C5 as stated: at a concrete record and the
`create_schema` database, the raising statement is the existence-check
SELECT, not the benchmark INSERT. -/
theorem c5_raise_is_select_not_insert :
    run_store_checked createSchemaCols recB dbSeeded =
        (.error ⟨"select_benchmark_exists", "event_id"⟩, dbSeeded) ∧
      ("select_benchmark_exists" : String) ≠ "insert_benchmark" := by
  constructor
  · rfl
  · decide

/-- Witness for C5 (amended): the general theorem applied at the same
concrete record and database. -/
theorem c5_create_schema_benchmark_error_witness :
    run_store_checked createSchemaCols recB dbSeeded =
      (.error ⟨"select_benchmark_exists", "event_id"⟩, dbSeeded) :=
  c5_create_schema_benchmark_error recB dbSeeded (by decide)

/-! ## Page-text recognizers (`extract_survey_data`, pdf_import.py 16-473)

Each `re.search` of the orchestrator is translated into a deterministic
scanner.  Greedy runs followed by a character their class cannot match
need no backtracking; where greedy whitespace interacts with a following
lazy group (`\s+(.*?)`), the scanner tries the whitespace lengths in
descending order with the lazy middle ascending, which is exactly the
regex backtracking priority. -/

/-- Generic leftmost search: try the matcher at every position. -/
def searchOpt {α : Type} (m : List Char → Option α) : List Char → Option α
  | [] => m []
  | c :: cs =>
    match m (c :: cs) with
    | some v => some v
    | none => searchOpt m cs

/-- Suffixes right after case-insensitive occurrences of a literal. -/
def ciSuffixesAfterLit (lit : List Char) : List Char → List (List Char)
  | [] => []
  | c :: cs =>
    (if ciHasPre lit (c :: cs) then [(c :: cs).drop lit.length] else []) ++
      ciSuffixesAfterLit lit cs

/-- `\d+\.\d+` at a position: the float token and the remainder. -/
def floatTokSplitAt (s : List Char) : Option (List Char × List Char) :=
  let d1 := (takeDigitRun s).1
  if d1.isEmpty then none
  else
    match (takeDigitRun s).2 with
    | '.' :: r2 =>
      let d2 := (takeDigitRun r2).1
      if d2.isEmpty then none
      else some (d1 ++ '.' :: d2, (takeDigitRun r2).2)
    | _ => none

/-- `\d+\.\d+` at a position (token only). -/
def floatTokAt (s : List Char) : Option (List Char) :=
  (floatTokSplitAt s).map (·.1)

/-- `[A-Z]{4}\d+` at a position, with the remainder. -/
def upper4DigitsSplitAt (s : List Char) : Option (List Char × List Char) :=
  let l4 := s.take 4
  if l4.length = 4 && l4.all Char.isUpper then
    let d := (takeDigitRun (s.drop 4)).1
    if d.isEmpty then none
    else some (l4 ++ d, (takeDigitRun (s.drop 4)).2)
  else none

/-- `(?:ISYS|COMP|BUSN|ACCT)(\d{4})` at a position (line 64),
alternatives tried in order. -/
def fixedCodeAt (s : List Char) : Option (List Char) :=
  (["ISYS", "COMP", "BUSN", "ACCT"]).findSome? fun pre =>
    if pre.data.isPrefixOf s then
      let d4 := (s.drop 4).take 4
      if d4.length = 4 && d4.all Char.isDigit then some (pre.data ++ d4)
      else none
    else none

/-- First fixed-prefix unit code anywhere in the text. -/
def searchFixedCode (t : List Char) : Option (List Char) :=
  searchOpt fixedCodeAt t

/-- Typographic dash class `[-–]`. -/
def isDashChar (c : Char) : Bool := c = '-' || c = '–'

/-- `re.sub(r'[A-Z]{4}\d+\s*', '', title)` (line 84): delete every code
token with its trailing whitespace.  Fuel equal to the length is
exhaustive (every step consumes at least one character). -/
def subCodeWsF : Nat → List Char → List Char
  | 0, s => s
  | _, [] => []
  | fuel + 1, c :: cs =>
    match upper4DigitsSplitAt (c :: cs) with
    | some mr => subCodeWsF fuel (mr.2.dropWhile pySpace)
    | none => c :: subCodeWsF fuel cs

def subCodeWs (s : List Char) : List Char := subCodeWsF s.length s

/-- `re.sub(r'^[-–]\s*', '', t)` (line 86): anchored removal of a
leading dash and whitespace. -/
def stripLeadDash (s : List Char) : List Char :=
  match s with
  | c :: cs => if isDashChar c then cs.dropWhile pySpace else s
  | [] => []

/-- Does `\s*[-–]\s*Semester` match at this position? -/
def dashSemesterAt (s : List Char) : Bool :=
  match s.dropWhile pySpace with
  | c :: cs =>
    isDashChar c && "Semester".data.isPrefixOf (cs.dropWhile pySpace)
  | [] => false

/-- `re.sub(r'\s*[-–]\s*Semester.*$', '', t)` (line 88): cut from the
first ` - Semester` to the end. -/
def cutDashSemester : List Char → List Char
  | [] => []
  | c :: cs =>
    if dashSemesterAt (c :: cs) then [] else c :: cutDashSemester cs

/-- The title-line fallback of the unit-name extraction (lines 79-90):
first line containing `Introduction to`, cleaned stepwise. -/
def titleLineName (t : List Char) : Option (List Char) :=
  match (splitOnChar '\n' t).filter
      (fun l => isSubChars "Introduction to".data l) with
  | [] => none
  | l :: _ =>
    let t1 := pyStrip (subCodeWs (pyStrip l))
    let t2 := pyStrip (stripLeadDash t1)
    some (pyStrip (cutDashSemester t2))

/-- Lazy `(.*?)` (no DOTALL: cannot cross a newline) up to a Boolean
tail condition; shortest middle first. -/
def lazyToTail (tailOk : List Char → Bool) : List Char → Option (List Char)
  | [] => if tailOk [] then some [] else none
  | c :: cs =>
    if tailOk (c :: cs) then some []
    else if c = '\n' then none
    else (lazyToTail tailOk cs).map (fun m => c :: m)

/-- `\s+` (greedy, backtracking downward) followed by a lazy middle up
to a tail condition; returns the middle.  `k+1` is the whitespace length
tried. -/
def wsDescTry (tailOk : List Char → Bool) (r : List Char) :
    Nat → Option (List Char)
  | 0 => none
  | k + 1 =>
    match lazyToTail tailOk (r.drop (k + 1)) with
    | some mid => some mid
    | none => wsDescTry tailOk r k

/-- `\s+(.*?)` then a tail condition, with regex backtracking priority
(longest whitespace first, shortest middle first). -/
def wsThenLazy (tailOk : List Char → Bool) (r : List Char) :
    Option (List Char) :=
  wsDescTry tailOk r (r.takeWhile pySpace).length

/-- Does `\s+-\s+Semester` match at this position (pattern 1's tail)? -/
def dashSemTail (s : List Char) : Bool :=
  !(s.takeWhile pySpace).isEmpty &&
    (match s.dropWhile pySpace with
     | '-' :: r =>
       !(r.takeWhile pySpace).isEmpty &&
         "Semester".data.isPrefixOf (r.dropWhile pySpace)
     | _ => false)

/-- `([A-Z]{4}\d+)\s+(.*?)\s+-\s+Semester` at a position (line 98). -/
def unitP1At (s : List Char) : Option (List Char × List Char) :=
  match upper4DigitsSplitAt s with
  | none => none
  | some cr => (wsThenLazy dashSemTail cr.2).map (fun mid => (cr.1, mid))

/-- Tail `(?:\s+-\s+|\s+Semester)` of pattern 2 (line 106). -/
def p2Tail (s : List Char) : Bool :=
  (!(s.takeWhile pySpace).isEmpty &&
    (match s.dropWhile pySpace with
     | '-' :: r => !(r.takeWhile pySpace).isEmpty
     | _ => false)) ||
  (!(s.takeWhile pySpace).isEmpty &&
    "Semester".data.isPrefixOf (s.dropWhile pySpace))

/-- `([A-Z]{4}\d+)\s+(.*?)(?:\s+-\s+|\s+Semester)` at a position. -/
def unitP2At (s : List Char) : Option (List Char × List Char) :=
  match upper4DigitsSplitAt s with
  | none => none
  | some cr => (wsThenLazy p2Tail cr.2).map (fun mid => (cr.1, mid))

/-- Tail `(?:\n|$)` of pattern 3 (line 114). -/
def p3Tail (s : List Char) : Bool :=
  s.isEmpty || s.head? == some '\n'

/-- `Unit Survey Report\s*-\s*([A-Z]{4}\d+)\s+(.*?)(?:\n|$)` at a
position. -/
def unitP3At (s : List Char) : Option (List Char × List Char) :=
  if "Unit Survey Report".data.isPrefixOf s then
    let r1 := (s.drop "Unit Survey Report".data.length).dropWhile pySpace
    match r1 with
    | '-' :: r2 =>
      match upper4DigitsSplitAt (r2.dropWhile pySpace) with
      | some cr => (wsThenLazy p3Tail cr.2).map (fun mid => (cr.1, mid))
      | none => none
    | _ => none
  else none

/-- The unit code/name section of `extract_survey_data` (lines 63-128):
fixed-code search with hard-coded name logic, then the three header
patterns, then the hard-coded fallback. -/
def unitCodeNameOf (t : List Char) : Option String × Option String :=
  match searchFixedCode t with
  | some code =>
    (some (String.mk code),
     if isSubChars "Introduction to Business".data t then
       if isSubChars "Programming".data t then
         some "Introduction to Business Programming"
       else (titleLineName t).map String.mk
     else none)
  | none =>
    match searchOpt unitP1At t with
    | some cn => (some (String.mk cn.1), some (String.mk cn.2))
    | none =>
      match searchOpt unitP2At t with
      | some cn => (some (String.mk cn.1), some (String.mk cn.2))
      | none =>
        match searchOpt unitP3At t with
        | some cn => (some (String.mk cn.1), some (String.mk (pyStrip cn.2)))
        | none =>
          if isSubChars "Introduction to Business".data t then
            (some "ISYS2001", some "Introduction to Business Programming")
          else (none, none)

/-- Tail `\s+Campus\s*[-–]\s*(Internal|Online)` (case-insensitive) of
the campus pattern; returns the mode source text. -/
def campusTail (s : List Char) : Option (List Char) :=
  if (s.takeWhile pySpace).isEmpty then none
  else
    let r1 := s.dropWhile pySpace
    if ciHasPre "Campus".data r1 then
      match (r1.drop 6).dropWhile pySpace with
      | c :: r3 =>
        if isDashChar c then
          let r4 := r3.dropWhile pySpace
          if ciHasPre "Internal".data r4 then some (r4.take 8)
          else if ciHasPre "Online".data r4 then some (r4.take 6)
          else none
        else none
      | [] => none
    else none

/-- Lazy `([^-]+?)` (at least one non-dash character) followed by
`campusTail`; shortest group first. -/
def lazyGroupNonDash : List Char → Option (List Char × List Char)
  | [] => none
  | c :: cs =>
    if c = '-' then none
    else
      match campusTail cs with
      | some mode => some ([c], mode)
      | none => (lazyGroupNonDash cs).map (fun gm => (c :: gm.1, gm.2))

/-- `- ([^-]+?)\s+Campus\s*[-–]\s*(Internal|Online)` at a position
(line 135). -/
def campusAt (s : List Char) : Option (List Char × List Char) :=
  match s with
  | '-' :: ' ' :: r => lazyGroupNonDash r
  | _ => none

/-- Delimiter `(?:_|\s*$)` of the alternative campus pattern. -/
def altCampusDelim (s : List Char) : Bool :=
  s.head? == some '_' || (s.dropWhile pySpace).isEmpty

/-- `[-\s]*` (greedy, backtracking downward) then the lazy group of the
alternative campus pattern; `k` is the class-run length tried. -/
def altDescTry (r : List Char) : Nat → Option (List Char)
  | 0 => lazyToTail altCampusDelim r
  | k + 1 =>
    match lazyToTail altCampusDelim (r.drop (k + 1)) with
    | some mid => some mid
    | none => altDescTry r k

/-- `(?:campus|centre)[-\s]*(.*?)(?:_|\s*$)` (case-insensitive) at a
position (line 146). -/
def campusAltAt (s : List Char) : Option (List Char) :=
  if ciHasPre "campus".data s || ciHasPre "centre".data s then
    let r1 := s.drop 6
    altDescTry r1 (r1.takeWhile (fun c => c = '-' || pySpace c)).length
  else none

/-- The campus/mode section (lines 133-154): primary pattern, then the
alternative with default mode `Internal`. -/
def extractCampus (t : List Char) : Option String × Option String :=
  match searchOpt campusAt t with
  | some lm =>
    (some (String.mk (pyStrip lm.1)), some (String.mk (pyStrip lm.2)))
  | none =>
    match searchOpt campusAltAt t with
    | some loc => (some (String.mk (pyStrip loc)), some "Internal")
    | none => (none, none)

/-- `Semester\s+[12]` (case-insensitive) at a position; returns the
matched source text and the remainder. -/
def termPhraseSemAt (s : List Char) : Option (List Char × List Char) :=
  if ciHasPre "Semester".data s then
    let r := s.drop 8
    let w := r.takeWhile pySpace
    if w.isEmpty then none
    else
      match r.dropWhile pySpace with
      | d :: r2 =>
        if d = '1' || d = '2' then some (s.take (8 + w.length + 1), r2)
        else none
      | [] => none
  else none

/-- `Trimester\s+[123]` (case-insensitive) at a position. -/
def termPhraseTriAt (s : List Char) : Option (List Char × List Char) :=
  if ciHasPre "Trimester".data s then
    let r := s.drop 9
    let w := r.takeWhile pySpace
    if w.isEmpty then none
    else
      match r.dropWhile pySpace with
      | d :: r2 =>
        if d = '1' || d = '2' || d = '3' then
          some (s.take (9 + w.length + 1), r2)
        else none
      | [] => none
  else none

/-- `(Semester\s+[12]|Trimester\s+[123])\s+(\d{4})` (case-insensitive)
at a position (line 158); returns (term source text, year digits). -/
def termPrimaryAt (s : List Char) : Option (List Char × List Char) :=
  match
    (match termPhraseSemAt s with
     | some v => some v
     | none => termPhraseTriAt s) with
  | none => none
  | some pr =>
    if (pr.2.takeWhile pySpace).isEmpty then none
    else
      let r2 := pr.2.dropWhile pySpace
      let y := r2.take 4
      if y.length = 4 && y.all Char.isDigit then some (pr.1, y) else none

/-- Fallback `Semester\s+(\d+)\s+(\d{4})` (case-sensitive) at a position
(line 166); returns (semester digits, year digits). -/
def termFallbackAt (s : List Char) : Option (List Char × List Char) :=
  if "Semester".data.isPrefixOf s then
    let r := s.drop 8
    if (r.takeWhile pySpace).isEmpty then none
    else
      let r1 := r.dropWhile pySpace
      let d := (takeDigitRun r1).1
      if d.isEmpty then none
      else
        let r2 := (takeDigitRun r1).2
        if (r2.takeWhile pySpace).isEmpty then none
        else
          let r3 := r2.dropWhile pySpace
          let y := r3.take 4
          if y.length = 4 && y.all Char.isDigit then some (d, y) else none
  else none

/-- The term/year section (lines 156-176). -/
def extractTerm (t : List Char) : Option String × Option String :=
  match searchOpt termPrimaryAt t with
  | some ty =>
    (some (String.mk (pyStrip ty.1)), some (String.mk (pyStrip ty.2)))
  | none =>
    match searchOpt termFallbackAt t with
    | some dy =>
      (some (String.mk ("Semester ".data ++ dy.1)), some (String.mk dy.2))
    | none => (none, none)

/-- `re.search(r'Semester\s+(\d+)', term)` (case-sensitive, line 760). -/
def semesterDigitsAt (s : List Char) : Option (List Char) :=
  if "Semester".data.isPrefixOf s then
    let r := s.drop 8
    if (r.takeWhile pySpace).isEmpty then none
    else
      let d := (takeDigitRun (r.dropWhile pySpace)).1
      if d.isEmpty then none else some d
  else none

def searchSemesterNum (t : List Char) : Option Nat :=
  (searchOpt semesterDigitsAt t).map digitsToNat

/-- The raw unit-info dictionary of `extract_survey_data`. -/
structure UnitInfo where
  unit_code : Option String
  unit_name : Option String
  campus_name : Option String
  mode : Option String
  term : Option String
  year : Option String
  deriving DecidableEq, Repr

/-- The unit-info section of `extract_survey_data` (lines 51-176). -/
def extractUnitInfo (p0 : List Char) : UnitInfo :=
  let cn := unitCodeNameOf p0
  let cm := extractCampus p0
  let ty := extractTerm p0
  ⟨cn.1, cn.2, cm.1, cm.2, ty.1, ty.2⟩

/-- The response-statistics dictionary (all three keys are always set
together, lines 192-194 and 204-206). -/
structure Stats where
  enrollments : Nat
  responses : Nat
  response_rate : FloatLit
  deriving DecidableEq, Repr

/-- Tail `\s*(\d+)\s+(\d+)\s+(\d+\.\d+)` of the primary stats regex. -/
def statsNumTail (s : List Char) : Option (Nat × Nat × List Char) :=
  let r1 := s.dropWhile pySpace
  let d1 := (takeDigitRun r1).1
  if d1.isEmpty then none
  else
    let r2 := (takeDigitRun r1).2
    if (r2.takeWhile pySpace).isEmpty then none
    else
      let r3 := r2.dropWhile pySpace
      let d2 := (takeDigitRun r3).1
      if d2.isEmpty then none
      else
        let r4 := (takeDigitRun r3).2
        if (r4.takeWhile pySpace).isEmpty then none
        else
          (floatTokAt (r4.dropWhile pySpace)).map
            (fun f => (digitsToNat d1, digitsToNat d2, f))

/-- `# Enrolments.*?\(N\).*?# Responses.*?Response Rate\s*(\d+)\s+(\d+)\s+(\d+\.\d+)`
(DOTALL, line 188): each lazy gap tries its occurrences left to right. -/
def statsPrimary (t : List Char) : Option Stats :=
  (suffixesAfterLit "# Enrolments".data t).findSome? fun r1 =>
    (suffixesAfterLit "(N)".data r1).findSome? fun r2 =>
      (suffixesAfterLit "# Responses".data r2).findSome? fun r3 =>
        (suffixesAfterLit "Response Rate".data r3).findSome? fun r4 =>
          (statsNumTail r4).map fun v => ⟨v.1, v.2.1, ⟨String.mk v.2.2⟩⟩

/-- All (maximal digit run, remainder) pairs at digit-run starts, left
to right.  Backtracking of `.*?(\d+)` only ever moves to the next run:
retrying inside a run leaves the same remainder, so it fails whenever the
run did.  Fuel equal to the length is exhaustive. -/
def digitRunSuffixesF : Nat → List Char → List (List Char × List Char)
  | 0, _ => []
  | _, [] => []
  | fuel + 1, c :: cs =>
    if c.isDigit then
      (takeDigitRun (c :: cs)) :: digitRunSuffixesF fuel (takeDigitRun (c :: cs)).2
    else digitRunSuffixesF fuel cs

def digitRunSuffixes (s : List Char) : List (List Char × List Char) :=
  digitRunSuffixesF s.length s

/-- Alternative stats regex
`Enrolments.*?(\d+).*?Responses.*?(\d+).*?Rate.*?(\d+\.\d+)` (DOTALL,
line 202). -/
def altStats (t : List Char) : Option Stats :=
  (suffixesAfterLit "Enrolments".data t).findSome? fun r1 =>
    (digitRunSuffixes r1).findSome? fun dr1 =>
      (suffixesAfterLit "Responses".data dr1.2).findSome? fun r2 =>
        (digitRunSuffixes r2).findSome? fun dr2 =>
          (suffixesAfterLit "Rate".data dr2.2).findSome? fun r3 =>
            (searchOpt floatTokAt r3).map fun f =>
              ⟨digitsToNat dr1.1, digitsToNat dr2.1, ⟨String.mk f⟩⟩

/-- The response-statistics section (lines 178-211): primary regex,
then the alternative when no `enrollments` key was set. -/
def extractStats (t : List Char) : Option Stats :=
  match statsPrimary t with
  | some s => some s
  | none => altStats t

/-- The metric-text/key table of lines 216-223. -/
def metricTexts : List (String × String) :=
  [("I was engaged by the learning activities", "engagement"),
   ("The resources provided helped me to learn", "resources"),
   ("My learning was supported", "support"),
   ("Assessments helped me to demonstrate my learning", "assessments"),
   ("I knew what was expected of me", "expectations"),
   ("Overall, this unit was a worthwhile experience", "overall")]

/-- `escape(metric)\s+(\d+\.\d+)%` at a position (line 227). -/
def metricPctAt (m : List Char) (s : List Char) : Option (List Char) :=
  if m.isPrefixOf s then
    let r := s.drop m.length
    if (r.takeWhile pySpace).isEmpty then none
    else
      match floatTokSplitAt (r.dropWhile pySpace) with
      | some fr => if fr.2.head? == some '%' then some fr.1 else none
      | none => none
  else none

/-- Alternative `metric.*?(\d+\.\d+)` (DOTALL, IGNORECASE, line 241). -/
def altMetric (m : List Char) (t : List Char) : Option (List Char) :=
  (ciSuffixesAfterLit m t).findSome? fun r => searchOpt floatTokAt r

/-- The percentage-agreement section (lines 213-246), as a key/value
association list in metric order (each key is set at most once). -/
def extractAgreement (p2 : List Char) : List (String × FloatLit) :=
  let primary := metricTexts.filterMap fun mk =>
    (searchOpt (metricPctAt mk.1.data) p2).map
      (fun f => (mk.2, FloatLit.mk (String.mk f)))
  if primary.isEmpty then
    metricTexts.filterMap fun mk =>
      (altMetric mk.1.data p2).map
        (fun f => (mk.2, FloatLit.mk (String.mk f)))
  else primary

/-- One raw benchmark row of `extract_survey_data` (lines 288-302):
the level key, six percentages and up to six sample sizes. -/
structure LevelRaw where
  level : String
  pas : List FloatLit
  ns : List (Option Nat)
  deriving DecidableEq, Repr

/-- Lazy `.*?` (DOTALL) up to and including the first newline, for the
simpler fallback span `({level_pattern}.*?\n)` (line 278). -/
def lazyToNl : List Char → Option (List Char)
  | [] => none
  | c :: cs =>
    if c = '\n' then some ['\n'] else (lazyToNl cs).map (fun m => c :: m)

/-- `re.search(f"({level_pattern}.*?\n)", s, DOTALL | CI)`. -/
def findLevelSpanNl (p : LevelPat) : List Char → Option (List Char)
  | [] => none
  | c :: t =>
    match levelPatAt p (c :: t) with
    | some mr => (lazyToNl mr.2).map (fun mid => mr.1 ++ mid)
    | none => findLevelSpanNl p t

/-- The level key/pattern table of `extract_survey_data` (lines
262-268); unlike `extract_benchmarks` its last key is `Curtin`. -/
def benchPageLevels (ucode : String) : List (String × LevelPat) :=
  [("Overall", .overall),
   (String.mk ("Unit - ".data ++ ucode.data), .unitLv),
   ("School", .school),
   ("Faculty", .faculty),
   ("Curtin", .curtin)]

/-- The benchmark section of `extract_survey_data` (lines 251-310):
per level, the text span (with the `.*?\n` fallback), and a row when it
holds at least six percentage tokens. -/
def extractBenchPage (p3 : List Char) (ucode : String) : List LevelRaw :=
  (benchPageLevels ucode).filterMap fun kp =>
    (match findLevelSpan kp.2 p3 with
     | some sp => some sp
     | none => findLevelSpanNl kp.2 p3).bind fun sp =>
      let percentages := findPcts sp
      let n_values := findIntTokens sp
      if 6 ≤ percentages.length then
        some ⟨kp.1,
          (List.range 6).map
            (fun i => FloatLit.mk (String.mk (percentages.getD i []))),
          (List.range 6).map
            (fun i =>
              if i < n_values.length then
                some (digitsToNat (n_values.getD i []))
              else none)⟩
      else none

/-- One count/percentage cell of the detailed distributions. -/
structure DistCell where
  count : Nat
  percentage : FloatLit
  deriving DecidableEq, Repr

/-- The per-question distribution dictionary (lines 333-362). -/
structure DistBlock where
  strongly_disagree : DistCell
  disagree : DistCell
  neutral : DistCell
  agree : DistCell
  strongly_agree : DistCell
  agreement_percentage : Option FloatLit
  deriving DecidableEq, Repr

/-- `escape(label)\s+(\d+)\s+(\d+\.\d+)%` at a position (lines
342-348). -/
def distPatAt (lbl : List Char) (s : List Char) : Option DistCell :=
  if lbl.isPrefixOf s then
    let r := s.drop lbl.length
    if (r.takeWhile pySpace).isEmpty then none
    else
      let r1 := r.dropWhile pySpace
      let d := (takeDigitRun r1).1
      if d.isEmpty then none
      else
        let r2 := (takeDigitRun r1).2
        if (r2.takeWhile pySpace).isEmpty then none
        else
          match floatTokSplitAt (r2.dropWhile pySpace) with
          | some fr =>
            if fr.2.head? == some '%' then
              some ⟨digitsToNat d, ⟨String.mk fr.1⟩⟩
            else none
          | none => none
  else none

/-- Search one distribution pattern in the page; the dictionary default
is `{count: 0, percentage: 0.0}` (lines 333-339). -/
def searchDist (lbl : String) (t : List Char) : DistCell :=
  (searchOpt (distPatAt lbl.data) t).getD ⟨0, fl0⟩

/-- `Agreement\s+(\d+\.\d+)%` at a position (line 360). -/
def agreementPctAt (s : List Char) : Option (List Char) :=
  metricPctAt "Agreement".data s

/-- The distribution block a page yields (searches run over the whole
page text, lines 350-362). -/
def distBlockOf (page : List Char) : DistBlock :=
  ⟨searchDist "1 Strongly Disagree" page,
   searchDist "2 Disagree" page,
   searchDist "3 Neither Agree nor Disagree" page,
   searchDist "4 Agree" page,
   searchDist "5 Strongly Agree" page,
   (searchOpt agreementPctAt page).map (fun f => ⟨String.mk f⟩)⟩

/-- Python-dict upsert: overwrite in place, else append. -/
def upsertDist (l : List (String × DistBlock)) (k : String)
    (v : DistBlock) : List (String × DistBlock) :=
  if l.any (fun p => p.1 == k) then
    l.map (fun p => if p.1 == k then (p.1, v) else p)
  else l ++ [(k, v)]

/-- One detailed-results page (lines 323-366).  The question-block span
regex always succeeds when the metric text occurs (its lazy span is
terminated by the `$` alternative of the lookahead), so the gate is the
substring test. -/
def extractDetailPage (page : List Char)
    (acc : List (String × DistBlock)) : List (String × DistBlock) :=
  metricTexts.foldl
    (fun a mk =>
      if isSubChars mk.1.data page then upsertDist a mk.1 (distBlockOf page)
      else a)
    acc

/-- The detailed-results section (lines 312-368): pages with 0-based
indices 4 to `min 7 len - 1`. -/
def extractDetailed (pages : List (List Char)) : List (String × DistBlock) :=
  ([4, 5, 6].filter (fun i => i < pages.length)).foldl
    (fun acc i => extractDetailPage (pages.getD i []) acc) []

/-- Delimiter `(?:This report may contain|$)` of the comments regex. -/
def commentsDelim (s : List Char) : Bool :=
  ciHasPre "This report may contain".data s || s.isEmpty || s == ['\n']

/-- Lazy `(.*?)` (DOTALL) up to a delimiter; always succeeds since the
empty remainder is a delimiter. -/
def lazyAnyToDelim (delim : List Char → Bool) : List Char → Option (List Char)
  | [] => if delim [] then some [] else none
  | c :: cs =>
    if delim (c :: cs) then some []
    else (lazyAnyToDelim delim cs).map (fun m => c :: m)

/-- `What are the main reasons for your rating.*?Comments\s*(.*?)(?:This report may contain|$)`
(DOTALL, IGNORECASE, line 388): captured group. -/
def commentsSectionOf (page : List Char) : Option (List Char) :=
  (ciSuffixesAfterLit "What are the main reasons for your rating".data
      page).findSome? fun r1 =>
    (ciSuffixesAfterLit "Comments".data r1).findSome? fun r2 =>
      lazyAnyToDelim commentsDelim (r2.dropWhile pySpace)

/-- The suffix after the last newline of a list, if it has one. -/
def splitAfterLastNl : List Char → Option (List Char)
  | [] => none
  | c :: cs =>
    match splitAfterLastNl cs with
    | some r => some r
    | none => if c = '\n' then some cs else none

/-- Match the separator `\n\s*\n` at a position: a newline whose
following whitespace run holds another newline; the separator extends
through the run's last newline.  Returns the remainder. -/
def splitBlankSep (s : List Char) : Option (List Char) :=
  match s with
  | '\n' :: t =>
    let run := t.takeWhile pySpace
    (splitAfterLastNl run).map (fun suf => suf ++ t.drop run.length)
  | _ => none

/-- `re.split(r'\n\s*\n', s)` (line 400).  Every separator consumes at
least two characters, so fuel equal to the length is exhaustive. -/
def pySplitBlankF : Nat → List Char → List (List Char)
  | 0, s => [s]
  | _, [] => [[]]
  | fuel + 1, c :: cs =>
    match splitBlankSep (c :: cs) with
    | some rest => [] :: pySplitBlankF fuel rest
    | none =>
      match pySplitBlankF fuel cs with
      | [] => [[c]]
      | h :: t => (c :: h) :: t

def pySplitBlank (s : List Char) : List (List Char) :=
  pySplitBlankF s.length s

/-- The nine start words of `comment_starts` (lines 408-412), in
alternation order. -/
def commentStartWords : List (List Char) :=
  ["As ".data, "The ".data, "I ".data, "Overall".data, "It was".data,
   "Was ".data, "Fun ".data, "Good ".data, "best ".data]

/-- Match the combined pattern `(?:^|\n)(?:W)` alternation at a
position; `atStart` is true only at position 0.  Returns (matched
separator text, remainder). -/
def commentSepAt (atStart : Bool) (s : List Char) :
    Option (List Char × List Char) :=
  commentStartWords.findSome? fun w =>
    if atStart && w.isPrefixOf s then some (w, s.drop w.length)
    else
      match s with
      | '\n' :: t =>
        if w.isPrefixOf t then some ('\n' :: w, t.drop w.length) else none
      | _ => none

/-- Simultaneous `re.split`/`re.findall` scan of the combined comment
pattern (lines 416-419): (pieces, separators).  Every separator consumes
at least two characters. -/
def commentSplitScanF : Nat → Bool → List Char →
    List (List Char) × List (List Char)
  | 0, _, s => ([s], [])
  | _, _, [] => ([[]], [])
  | fuel + 1, atStart, c :: cs =>
    match commentSepAt atStart (c :: cs) with
    | some sr =>
      let r := commentSplitScanF fuel false sr.2
      ([] :: r.1, sr.1 :: r.2)
    | none =>
      let r := commentSplitScanF fuel false cs
      ((match r.1 with
        | [] => [[c]]
        | h :: t => (c :: h) :: t), r.2)

def commentSplitScan (s : List Char) :
    List (List Char) × List (List Char) :=
  commentSplitScanF s.length true s

/-- The reconstruction loop of lines 420-434: drop an all-whitespace
first piece, keep a non-blank first piece stripped, and prepend each
stripped separator to its stripped following piece. -/
def rebuildComments (pieces : List (List Char))
    (seps : List (List Char)) : List (List Char) :=
  match pieces with
  | [] => []
  | p0 :: rest =>
    (if (pyStrip p0).isEmpty then [] else [pyStrip p0]) ++
      (List.zip seps rest).map (fun sp => pyStrip sp.1 ++ pyStrip sp.2)

/-- Paragraphs of one comments section (lines 399-440): blank-line
split, the comment-starts fallback when fewer than three paragraphs,
then the cleanup filter. -/
def commentsFromSection (ctext : List Char) : List String :=
  let paragraphs := pySplitBlank ctext
  let paragraphs :=
    if paragraphs.length < 3 then
      let r := commentSplitScan ctext
      rebuildComments r.1 r.2
    else paragraphs
  paragraphs.filterMap fun para =>
    let clean := (pyStrip para).map (fun c => if c = '\n' then ' ' else c)
    if !clean.isEmpty && !isSubChars "Comments".data clean then
      some (String.mk clean)
    else none

/-- The comments section (lines 376-448): first page among 0-based
indices 7-9 whose text matches the comments regex. -/
def extractComments (pages : List (List Char)) : List String :=
  match ([7, 8, 9].filter (fun i => i < pages.length)).findSome?
      (fun i => commentsSectionOf (pages.getD i [])) with
  | some ctext => commentsFromSection (pyStrip ctext)
  | none => []

/-- The raw results dictionary of `extract_survey_data` (lines 27-34). -/
structure RawData where
  unit_info : UnitInfo
  response_stats : Option Stats
  percentage_agreement : List (String × FloatLit)
  benchmarks : List LevelRaw
  detailed_results : List (String × DistBlock)
  comments : List String
  deriving DecidableEq, Repr

/-- The initial (and short-document) results value. -/
def emptyRaw : RawData :=
  ⟨⟨none, none, none, none, none, none⟩, none, [], [], [], []⟩

/-- `extract_survey_data` (pdf_import.py 16-473) on the list of page
texts: fewer than three pages returns the empty results (line 46-49);
otherwise the six sections, each from its page range. -/
def extract_survey_data (pages : List (List Char)) : RawData :=
  if pages.length < 3 then emptyRaw
  else
    let ui := extractUnitInfo (pages.getD 0 [])
    { unit_info := ui
      response_stats :=
        if 2 < pages.length then extractStats (pages.getD 2 []) else none
      percentage_agreement :=
        if 2 < pages.length then extractAgreement (pages.getD 2 []) else []
      benchmarks :=
        if 3 < pages.length then
          extractBenchPage (pages.getD 3 []) (ui.unit_code.getD "")
        else []
      detailed_results := extractDetailed pages
      comments := extractComments pages }

/-- Is the unit-info dictionary non-empty (its truthiness test)? -/
def unitInfoNonempty (ui : UnitInfo) : Bool :=
  ui.unit_code.isSome || ui.unit_name.isSome || ui.campus_name.isSome ||
    ui.mode.isSome || ui.term.isSome || ui.year.isSome

/-- The backup unit-code/name fill of `extract_info_from_pdf` (lines
692-724), from the reopened first page text. -/
def backupFill (raw : RawData) (backup : List Char) : RawData :=
  if unitInfoNonempty raw.unit_info && raw.unit_info.unit_code.isNone then
    let ui := raw.unit_info
    let ui :=
      match searchUpperCode backup with
      | some m => { ui with unit_code := some (String.mk m) }
      | none =>
        if isSubChars "Introduction to Business".data backup then
          { ui with unit_code := some "ISYS2001" }
        else ui
    let ui :=
      if ui.unit_name.isNone then
        match (splitOnChar '\n' backup).filter
            (fun l => isSubChars "Introduction to".data l) with
        | [] => ui
        | l :: _ =>
          { ui with unit_name := some (String.mk (pyStrip (subCodeWs (pyStrip l)))) }
      else ui
    { raw with unit_info := ui }
  else raw

/-- The discipline name map of lines 770-776 with its `.get` default. -/
def disciplineMapGet (code : String) : String :=
  if code = "ISYS" then "Information Systems"
  else if code = "COMP" then "Computer Science"
  else if code = "MKTG" then "Marketing"
  else if code = "MGMT" then "Management"
  else if code = "ACCT" then "Accounting"
  else code

/-- `extract_info_from_pdf` (pdf_import.py 663-870) on the raw results
and the backup first-page text: backup fill, the two required checks,
the placeholder name, the term/year defaults, and the merged record. -/
def extract_info_from_pdf (raw0 : RawData) (backup : List Char) :
    Option Record :=
  let raw := backupFill raw0 backup
  if !unitInfoNonempty raw.unit_info then none
  else
    match raw.unit_info.unit_code with
    | none => none
    | some unit_code =>
      let unit_name0 := raw.unit_info.unit_name.getD ""
      let pcode := String.mk (unit_code.data.take 4)
      let unit_name :=
        if unit_name0 = "" then
          if pcode = "ISYS" then "Information Systems"
          else if pcode = "COMP" then "Computer Science"
          else pcode ++ " Unit"
        else unit_name0
      let term := raw.unit_info.term.getD ""
      let semester :=
        match searchSemesterNum term.data with
        | some n => n
        | none => 1
      let yearStr := raw.unit_info.year.getD ""
      let year := if yearStr = "" then 0 else digitsToNat yearStr.data
      let discipline_code :=
        if 4 ≤ unit_code.data.length then String.mk (unit_code.data.take 4)
        else ""
      some
        { unit_code := unit_code
          unit_name := unit_name
          semester := semester
          year := year
          location := raw.unit_info.campus_name.getD "Unknown"
          availability := raw.unit_info.mode.getD "Internal"
          discipline_code := discipline_code
          discipline_name := disciplineMapGet discipline_code
          enrollments := (raw.response_stats.map Stats.enrollments).getD 0
          responses := (raw.response_stats.map Stats.responses).getD 0
          response_rate := (raw.response_stats.map Stats.response_rate).getD fl0
          overall_experience :=
            ((raw.percentage_agreement.find? (fun p => p.1 == "overall")).map
              (·.2)).getD fl0
          benchmarks :=
            raw.benchmarks.foldl
              (fun acc lv =>
                acc ++ (List.range 6).filterMap (fun i =>
                  match lv.ns.getD i none with
                  | some n =>
                    some { group_type :=
                             if isSubChars "School".data lv.level.data then
                               "School"
                             else if isSubChars "Faculty".data lv.level.data then
                               "Faculty"
                             else if isSubChars "Curtin".data lv.level.data then
                               "University"
                             else lv.level
                           group_name := lv.level
                           question_label := benchmark_categories.getD i ""
                           percent_agree := lv.pas.getD i fl0
                           total_n := n }
                  | none => none))
              []
          comments :=
            raw.comments.map
              (fun ctext => CommentEntry.mk ctext (estimate_sentiment ctext))
          detailed_results :=
            raw.detailed_results.map (fun qd =>
              DetailedEntry.mk qd.1 qd.2.strongly_disagree.count
                qd.2.disagree.count qd.2.neutral.count qd.2.agree.count
                qd.2.strongly_agree.count 0
                (qd.2.agreement_percentage.getD fl0)) }

/-- The full per-file pipeline: `extract_survey_data` then
`extract_info_from_pdf`, whose backup text is the same first page. -/
def extract_info_full (pages : List (List Char)) : Option Record :=
  extract_info_from_pdf (extract_survey_data pages) (pages.getD 0 [])

/-- When a unit code is already present, the backup fill changes
nothing. -/
theorem backupFill_code_some (raw : RawData) (backup : List Char)
    (c : String) (hcode : raw.unit_info.unit_code = some c) :
    backupFill raw backup = raw := by
  unfold backupFill
  rw [hcode]
  simp

/-- A first page whose content lines match the canonical layout. -/
def c3Page : List Char := ("ISYS2001 a mystery unit").data

def c3Doc : List (List Char) := [c3Page, [], []]

/-- C3: `extract_info_from_pdf` does not reject a record whose term or
year is missing: whenever a unit code resolved but no term and no year
did, it still returns a record, silently defaulting the semester to 1
(lines 759-761) and the year to 0 (lines 763-764). -/
theorem c3_missing_term_defaults (raw : RawData) (backup : List Char)
    (c : String) (hcode : raw.unit_info.unit_code = some c)
    (hterm : raw.unit_info.term = none)
    (hyear : raw.unit_info.year = none) :
    ∃ r, extract_info_from_pdf raw backup = some r ∧
      r.semester = 1 ∧ r.year = 0 := by
  have hb : backupFill raw backup = raw := backupFill_code_some raw backup c hcode
  have hne : unitInfoNonempty raw.unit_info = true := by
    unfold unitInfoNonempty
    rw [hcode]
    rfl
  unfold extract_info_from_pdf
  rw [hb]
  dsimp only
  rw [hne, hcode, hterm, hyear]
  exact ⟨_, rfl, rfl, rfl⟩

/-- The raw results of a document whose first page yields only a unit
code (no term, no year). -/
def rawCodeOnly : RawData :=
  ⟨⟨some "ISYS2001", none, none, none, none, none⟩, none, [], [], [], []⟩

theorem c3_missing_term_defaults_witness :
    ∃ r, extract_info_from_pdf rawCodeOnly [] = some r ∧
      r.semester = 1 ∧ r.year = 0 :=
  c3_missing_term_defaults rawCodeOnly [] "ISYS2001" rfl rfl rfl

/-- Counterexample to the written claim: a concrete three-page document
whose term and year resolve to nothing is not rejected — extraction
returns a record with semester 1 and year 0. -/
theorem c3_no_term_not_rejected :
    (extract_survey_data c3Doc).unit_info.unit_code = some "ISYS2001" ∧
    (extract_survey_data c3Doc).unit_info.term = none ∧
    (extract_survey_data c3Doc).unit_info.year = none ∧
    (extract_info_full c3Doc).map Record.semester = some 1 ∧
    (extract_info_full c3Doc).map Record.year = some 0 :=
  ⟨rfl, rfl, rfl, rfl, rfl⟩

/-- A complete identity page: unit code and name line plus campus line
and term. -/
def c7IdPage : List Char :=
  ("ISYS2001 Introduction to Business Programming - Semester 1 2024\n" ++
    "- Bentley Perth Campus - Internal\n").data

/-- C7: the page-count guards of `extract_survey_data` as implemented:
a document with fewer than three pages returns the empty results and
yields no record at all (lines 46-49), while from three pages on the
sections of absent pages are individually skipped (benchmarks, detailed
results and comments empty on a three-page document). -/
theorem c7_page_guards :
    (∀ pages : List (List Char), pages.length < 3 →
        extract_survey_data pages = emptyRaw ∧
          extract_info_full pages = none) ∧
    (∀ p0 p1 p2 : List Char,
        extract_survey_data [p0, p1, p2] =
          { unit_info := extractUnitInfo p0
            response_stats := extractStats p2
            percentage_agreement := extractAgreement p2
            benchmarks := []
            detailed_results := []
            comments := [] }) := by
  constructor
  · intro pages h
    have he : extract_survey_data pages = emptyRaw := by
      unfold extract_survey_data
      rw [if_pos h]
    refine ⟨he, ?_⟩
    unfold extract_info_full
    rw [he]
    rfl
  · intro p0 p1 p2
    rfl

theorem c7_page_guards_witness :
    ([c7IdPage].length < 3 ∧ extract_survey_data [c7IdPage] = emptyRaw ∧
      extract_info_full [c7IdPage] = none) ∧
    extract_survey_data [c7IdPage, [], []] =
      { unit_info := extractUnitInfo c7IdPage
        response_stats := extractStats []
        percentage_agreement := extractAgreement []
        benchmarks := []
        detailed_results := []
        comments := [] } :=
  ⟨⟨by decide, (c7_page_guards.1 [c7IdPage] (by decide)).1,
    (c7_page_guards.1 [c7IdPage] (by decide)).2⟩,
   c7_page_guards.2 c7IdPage [] []⟩

/-- Counterexample to the written claim: a one-page document whose one
page is a fully recognizable identity page yields no unit identity at
all — the whole document is aborted by the page-count check — while the
same page inside a three-page document yields the unit code. -/
theorem c7_identity_page_alone_aborted :
    (extract_survey_data [c7IdPage]).unit_info.unit_code = none ∧
    extract_info_full [c7IdPage] = none ∧
    (extract_survey_data [c7IdPage, [], []]).unit_info.unit_code =
      some "ISYS2001" :=
  ⟨rfl, rfl, rfl⟩

/-- The adversarial first page: it contains both canonical lines, but an
earlier fixed-prefix code as well. -/
def c10AdvPage : List Char :=
  ("COMP1234 something\n" ++
    "ISYS2001 Introduction to Business Programming - Semester 1 2024\n" ++
    "- Bentley Perth Campus - Internal\n").data

def c10AdvDoc : List (List Char) := [c10AdvPage, [], []]

/-- The canonical first page, whose first code match is the identity
line's code. -/
def c10GoodPage : List Char :=
  ("ISYS2001 Introduction to Business Programming - Semester 1 2024\n" ++
    "- Bentley Perth Campus - Internal\n").data

def c10GoodDoc : List (List Char) := [c10GoodPage, [], []]

/-- C10: the identity extraction, conditioned on what the code actually
keys on: when the document has at least three pages and the first page's
*first* fixed-prefix code match is `ISYS2001`, the page contains
`Introduction to Business` and `Programming`, and the campus and term
scans return the canonical values, the record carries the six claimed
fields. -/
theorem c10_identity_lines_extraction (pages : List (List Char))
    (p0 : List Char) (hp0 : pages.getD 0 [] = p0)
    (hlen : 3 ≤ pages.length)
    (hcode : searchFixedCode p0 = some "ISYS2001".data)
    (hintro : isSubChars "Introduction to Business".data p0 = true)
    (hprog : isSubChars "Programming".data p0 = true)
    (hcampus : extractCampus p0 = (some "Bentley Perth", some "Internal"))
    (hterm : extractTerm p0 = (some "Semester 1", some "2024")) :
    ∃ r, extract_info_full pages = some r ∧
      r.unit_code = "ISYS2001" ∧
      r.unit_name = "Introduction to Business Programming" ∧
      r.semester = 1 ∧ r.year = 2024 ∧
      r.location = "Bentley Perth" ∧ r.availability = "Internal" := by
  have hui : extractUnitInfo p0 =
      ⟨some "ISYS2001", some "Introduction to Business Programming",
        some "Bentley Perth", some "Internal",
        some "Semester 1", some "2024"⟩ := by
    unfold extractUnitInfo unitCodeNameOf
    rw [hcode, hintro, hprog, hcampus, hterm]
    rfl
  unfold extract_info_full extract_survey_data
  rw [hp0, if_neg (by omega : ¬ pages.length < 3), hui]
  exact ⟨_, rfl, rfl, rfl, rfl, rfl, rfl, rfl⟩

theorem c10_identity_lines_extraction_witness :
    ∃ r, extract_info_full c10GoodDoc = some r ∧
      r.unit_code = "ISYS2001" ∧
      r.unit_name = "Introduction to Business Programming" ∧
      r.semester = 1 ∧ r.year = 2024 ∧
      r.location = "Bentley Perth" ∧ r.availability = "Internal" :=
  c10_identity_lines_extraction c10GoodDoc c10GoodPage rfl (by decide)
    rfl (by decide) (by decide) rfl rfl

/-- Counterexample to the written claim: a first page containing both
canonical lines verbatim, plus an earlier `COMP1234`, yields unit code
`COMP1234`, because line 64 takes the first match of the fixed-prefix
alternation anywhere in the page. -/
theorem c10_earlier_code_wins :
    isSubChars
        "ISYS2001 Introduction to Business Programming - Semester 1 2024".data
        c10AdvPage = true ∧
    isSubChars "- Bentley Perth Campus - Internal".data c10AdvPage = true ∧
    (extract_info_full c10AdvDoc).map Record.unit_code = some "COMP1234" :=
  ⟨by decide, by decide, rfl⟩

end SurveySavvy
